import Mathlib

/-!
Verification development for the MyStay email service (`src/server.js`, final
revision: the variant with host-notification support, which supersedes the
earlier near-duplicate revisions in the repository).

The embedding follows the source: pure rendering functions (`buildHtml`,
`buildHostHtml`, `escapeHtml`) become Lean functions on explicit input
records; the two Express route handlers become pure composition functions
taking the request record, an abstract profile resolver, and the environment
configuration, and returning the outcome (validation error / not found /
composed-and-sent envelope) together with a flag recording whether the
profile lookup was performed.  `lookupRecipient` is modelled against an
explicit database oracle mirroring the two supabase result channels
(`data`, `error`).  JavaScript truthiness on optional string fields and the
`||` / `??` operators are modelled explicitly.
-/

set_option maxRecDepth 100000

namespace MyStay

/-- Model of a JSON/JavaScript value as far as the `amount` field needs:
the handler only distinguishes `undefined`, `null`, and otherwise stringifies
with `String(amount)` (template-literal coercion). -/
inductive JsVal where
  | vStr (s : String)
  | vNum (n : Int)
  | vNull
  | vUndef
  deriving DecidableEq

/-- JavaScript `String(v)` / template-literal coercion for `JsVal`. -/
def jsString : JsVal → String
  | .vStr s => s
  | .vNum n => toString n
  | .vNull => "null"
  | .vUndef => "undefined"

/-- Truthiness of an optional string field of a JSON body: `undefined`
(absent) and the empty string are falsy, every other string is truthy. -/
def optTruthy : Option String → Bool
  | some s => s ≠ ""
  | none => false

@[simp] theorem optTruthy_some (s : String) : optTruthy (some s) = decide (s ≠ "") := rfl

@[simp] theorem optTruthy_none : optTruthy none = false := rfl

/-- JavaScript `o || d` for an optional string `o` and a string default. -/
def jsOr (o : Option String) (d : String) : String :=
  if optTruthy o then o.getD "" else d

/-- JavaScript `o || null` for an optional string: empty string collapses
to `null` (modelled as `none`). -/
def jsOrNull (o : Option String) : Option String :=
  if optTruthy o then o else none

/-- Template-literal display of a possibly-absent string
(`undefined` interpolates as the text "undefined"). -/
def optDisplay : Option String → String
  | some s => s
  | none => "undefined"

/-- Per-character step of `escapeHtml` (src/server.js line 960): the source
chains `replaceAll` for the five characters; since no replacement string
contains a character that a later `replaceAll` in the chain targets, the
chain acts independently on each character of the input, which this map
implements. -/
def escChar (c : Char) : String :=
  if c = '&' then "&amp;"
  else if c = '<' then "&lt;"
  else if c = '>' then "&gt;"
  else if c = '"' then "&quot;"
  else if c = '\x27' then "&#039;"
  else String.singleton c

/-- Character-list form of `escapeHtml`. -/
def escapeList : List Char → List Char
  | [] => []
  | c :: cs => (escChar c).data ++ escapeList cs

/-- `escapeHtml` from src/server.js (lines 960-968).  The
`null`/`undefined` guard of the source returns `""`; every call site in the
source passes a string (optional fields are guarded by truthiness checks
before being escaped), so the embedding takes a `String`. -/
def escapeHtml (s : String) : String :=
  ⟨escapeList s.data⟩

/-- JavaScript `String.prototype.toLowerCase`, modelled as the per-character
simple lower-case map (the classification substrings are pure ASCII). -/
def jsToLower (s : String) : String :=
  ⟨s.data.map Char.toLower⟩

/-- Executable substring occurrence check on character lists: some suffix
of the second list starts with the first list. -/
def hasPat (pat : List Char) : List Char → Bool
  | [] => pat.isEmpty
  | a :: xs => pat.isPrefixOf (a :: xs) || hasPat pat xs

/-- JavaScript `s.includes(sub)`: substring containment. -/
def jsIncludes (s sub : String) : Bool :=
  hasPat sub.data s.data

/-- The `isRefund` classification of `buildHtml` (src/server.js lines
543-547): the title is truthy and its lower-cased form contains one of the
three trigger substrings. -/
def isRefundTitle (paymentTitle : String) : Bool :=
  decide (paymentTitle ≠ "") &&
    (jsIncludes (jsToLower paymentTitle) "refund" ||
     jsIncludes (jsToLower paymentTitle) "reversal" ||
     jsIncludes (jsToLower paymentTitle) "reimbursement")

/-- `transactionLabel` local of `buildHtml` (line 550). -/
def transactionLabel (paymentTitle : String) : String :=
  if isRefundTitle paymentTitle then "Transaction Details" else "Payment Details"

/-- `amountLabel` local of `buildHtml` (line 551). -/
def amountLabel (paymentTitle : String) : String :=
  if isRefundTitle paymentTitle then "💵 Refund Amount" else "💰 Amount Paid"

/-- `bannerText` local of `buildHtml` (line 552). -/
def bannerTextTx (paymentTitle : String) : String :=
  if isRefundTitle paymentTitle then "✓ Refund Processed" else "✓ Transaction Successful"

/-- Input record of `buildHtml` (destructured parameter, line 541). -/
structure TxInput where
  recipientName : String := ""
  paymentTitle : String
  mpesaReceipt : Option String
  amount : JsVal
  bookingId : Option String
  extraMessage : Option String

/-- `buildHtml` from src/server.js (lines 541-705): the transaction /
refund HTML template.  The template literal is reproduced chunk for chunk;
`${...}` holes become the corresponding Lean expressions.  `year` stands
for `new Date().getFullYear()` (ambient clock made explicit). -/
def buildHtml (inp : TxInput) (year : Nat) : String :=
  "<!doctype html>\n<html>\n\t<head>\n\t\t<meta charset=\"utf-8\"/>\n\t\t<meta name=\"viewport\" content=\"width=device-width, initial-scale=1.0\"/>\n\t\t<link href=\"https://fonts.googleapis.com/css2?family=Sono:wght@400;500;600;700&display=swap\" rel=\"stylesheet\">\n\t\t<style>\n\t\t\tbody \x7b\n\t\t\t\tmargin: 0;\n\t\t\t\tpadding: 0;\n\t\t\t\tbackground-color: #e8f4f8;\n\t\t\t\tfont-family: \x27Sono\x27, Arial, sans-serif;\n\t\t\t\x7d\n\t\t</style>\n\t</head>\n\t<body style=\"margin: 0; padding: 0; background-color: #e8f4f8; font-family: \x27Sono\x27, Arial, sans-serif;\">\n\t\t<table role=\"presentation\" width=\"100%\" cellspacing=\"0\" cellpadding=\"0\" border=\"0\" style=\"background-color: #e8f4f8; padding: 40px 20px;\">\n\t\t\t<tr>\n\t\t\t\t<td align=\"center\">\n\t\t\t\t\t<!\x2d\x2d Main container with dark blue border \x2d\x2d>\n\t\t\t\t\t<table role=\"presentation\" width=\"600\" cellspacing=\"0\" cellpadding=\"0\" border=\"0\" style=\"max-width: 600px; border-radius: 20px; overflow: hidden; border: 4px solid #0437F2; box-shadow: 0 8px 32px rgba(4, 55, 242, 0.15);\">\n\t\t\t\t\t\t\n\t\t\t\t\t\t<!\x2d\x2d Header with light blue to green gradient and icons \x2d\x2d>\n\t\t\t\t\t\t<tr>\n\t\t\t\t\t\t\t<td align=\"center\" style=\"background: linear-gradient(135deg, #d4ebf7 0%, #c8e6d5 100%); padding: 40px 30px 30px 30px;\">\n\t\t\t\t\t\t\t\t<!\x2d\x2d Success Checkmark Circle \x2d\x2d>\n\t\t\t\t\t\t\t\t<table role=\"presentation\" cellspacing=\"0\" cellpadding=\"0\" border=\"0\" style=\"margin: 0 auto 20px;\">\n\t\t\t\t\t\t\t\t\t<tr>\n\t\t\t\t\t\t\t\t\t\t<td align=\"center\" style=\"background: linear-gradient(135deg, #10b981 0%, #059669 100%); width: 100px; height: 100px; border-radius: 50%; box-shadow: 0 6px 20px rgba(16, 185, 129, 0.4);\">\n\t\t\t\t\t\t\t\t\t\t\t<img src=\"cid:checkmark-icon\" alt=\"Success\" style=\"width: 60px; height: 60px; margin-top: 20px;\"/>\n\t\t\t\t\t\t\t\t\t\t</td>\n\t\t\t\t\t\t\t\t\t</tr>\n\t\t\t\t\t\t\t\t</table>\n\t\t\t\t\t\t\t\t\n\t\t\t\t\t\t\t\t<!\x2d\x2d MyStay Branding \x2d\x2d>\n\t\t\t\t\t\t\t\t<table role=\"presentation\" cellspacing=\"0\" cellpadding=\"0\" border=\"0\" style=\"margin: 0 auto;\">\n\t\t\t\t\t\t\t\t\t<tr>\n\t\t\t\t\t\t\t\t\t\t<td align=\"center\">\n\t\t\t\t\t\t\t\t\t\t\t<img src=\"cid:mystay-icon\" alt=\"MyStay App Icon\" style=\"width: 48px; height: 48px; border-radius: 10px; vertical-align: middle; margin-right: 12px; box-shadow: 0 2px 8px rgba(0, 0, 0, 0.1);\"/>\n\t\t\t\t\t\t\t\t\t\t\t<span style=\"font-size: 26px; font-weight: 700; color: #0437F2; font-family: \x27Sono\x27, Arial, sans-serif; vertical-align: middle;\">MyStay App</span>\n\t\t\t\t\t\t\t\t\t\t</td>\n\t\t\t\t\t\t\t\t\t</tr>\n\t\t\t\t\t\t\t\t</table>\n\t\t\t\t\t\t\t</td>\n\t\t\t\t\t\t</tr>\n\t\t\t\t\t\t\n\t\t\t\t\t\t<!\x2d\x2d Success Message Banner \x2d\x2d>\n\t\t\t\t\t\t<tr>\n\t\t\t\t\t\t\t<td align=\"center\" style=\"background: linear-gradient(90deg, #10b981 0%, #059669 100%); padding: 16px 30px;\">\n\t\t\t\t\t\t\t\t<h2 style=\"margin: 0; font-size: 20px; font-weight: 700; color: #ffffff; font-family: \x27Sono\x27, Arial, sans-serif; text-transform: uppercase; letter-spacing: 0.5px;\">" ++
  bannerTextTx inp.paymentTitle ++
  "</h2>\n\t\t\t\t\t\t\t</td>\n\t\t\t\t\t\t</tr>\n\t\t\t\t\t\t\n\t\t\t\t\t\t<!\x2d\x2d Main content with light blue-green gradient \x2d\x2d>\n\t\t\t\t\t\t<tr>\n\t\t\t\t\t\t\t<td style=\"background: linear-gradient(180deg, #e0f2fe 0%, #d1fae5 100%); padding: 40px 30px;\">\n\t\t\t\t\t\t\t\t<h3 style=\"margin: 0 0 20px 0; font-size: 20px; font-weight: 600; color: #0437F2; font-family: \x27Sono\x27, Arial, sans-serif; text-align: center;\">" ++
  escapeHtml inp.paymentTitle ++
  "</h3>\n\t\t\t\t\t\t\t\t\n\t\t\t\t\t\t\t\t<p style=\"margin: 0 0 16px 0; font-size: 15px; color: #1e40af; line-height: 1.6; font-family: \x27Sono\x27, Arial, sans-serif;\">\n\t\t\t\t\t\t\t\t\tHi <strong>" ++
  escapeHtml (if inp.recipientName ≠ "" then inp.recipientName else "there") ++
  "</strong>,\n\t\t\t\t\t\t\t\t</p>\n\t\t\t\t\t\t\t\t<p style=\"margin: 0 0 32px 0; font-size: 14px; color: #166534; line-height: 1.7; font-family: \x27Sono\x27, Arial, sans-serif;\">\n\t\t\t\t\t\t\t\t\tThank you for using MyStay App. Your transaction has been processed successfully. Below are the details:\n\t\t\t\t\t\t\t\t</p>\n\t\t\t\t\t\t\t\t\n\t\t\t\t\t\t\t\t<!\x2d\x2d Transaction details card with white background \x2d\x2d>\n\t\t\t\t\t\t\t\t<table role=\"presentation\" width=\"100%\" cellspacing=\"0\" cellpadding=\"0\" border=\"0\" style=\"background-color: #ffffff; border-radius: 12px; overflow: hidden; border: 2px solid #0437F2; box-shadow: 0 4px 12px rgba(4, 55, 242, 0.1);\">\n\t\t\t\t\t\t\t\t\t<tr>\n\t\t\t\t\t\t\t\t\t\t<td style=\"padding: 0;\">\n\t\t\t\t\t\t\t\t\t\t\t<!\x2d\x2d Details header \x2d\x2d>\n\t\t\t\t\t\t\t\t\t\t\t<table role=\"presentation\" width=\"100%\" cellspacing=\"0\" cellpadding=\"0\" border=\"0\">\n\t\t\t\t\t\t\t\t\t\t\t\t<tr>\n\t\t\t\t\t\t\t\t\t\t\t\t\t<td style=\"background: linear-gradient(90deg, #0437F2 0%, #0284c7 100%); padding: 14px 24px;\">\n\t\t\t\t\t\t\t\t\t\t\t\t\t\t<span style=\"font-size: 14px; font-weight: 700; color: #ffffff; font-family: \x27Sono\x27, Arial, sans-serif; text-transform: uppercase; letter-spacing: 0.5px;\">" ++
  transactionLabel inp.paymentTitle ++
  "</span>\n\t\t\t\t\t\t\t\t\t\t\t\t\t</td>\n\t\t\t\t\t\t\t\t\t\t\t\t</tr>\n\t\t\t\t\t\t\t\t\t\t\t</table>\n\t\t\t\t\t\t\t\t\t\t\t\n\t\t\t\t\t\t\t\t\t\t\t<!\x2d\x2d Details content \x2d\x2d>\n\t\t\t\t\t\t\t\t\t\t\t<table role=\"presentation\" width=\"100%\" cellspacing=\"0\" cellpadding=\"0\" border=\"0\">\n\t\t\t\t\t\t\t\t\t\t\t\t<tr>\n\t\t\t\t\t\t\t\t\t\t\t\t\t<td style=\"padding: 16px 24px; border-bottom: 1px solid #e0f2fe;\">\n\t\t\t\t\t\t\t\t\t\t\t\t\t\t<span style=\"display: block; font-size: 13px; font-weight: 600; color: #1e40af; font-family: \x27Sono\x27, Arial, sans-serif; margin-bottom: 4px;\">" ++
  amountLabel inp.paymentTitle ++
  "</span>\n\t\t\t\t\t\t\t\t\t\t\t\t\t\t<span style=\"display: block; font-size: 22px; font-weight: 700; color: #10b981; font-family: \x27Sono\x27, Arial, sans-serif;\">" ++
  escapeHtml (jsString inp.amount) ++
  "</span>\n\t\t\t\t\t\t\t\t\t\t\t\t\t</td>\n\t\t\t\t\t\t\t\t\t\t\t\t</tr>\n\t\t\t\t\t\t\t\t\t\t\t\t" ++
  (if optTruthy inp.mpesaReceipt then
    "\n\t\t\t\t\t\t\t\t\t\t\t\t<tr>\n\t\t\t\t\t\t\t\t\t\t\t\t\t<td style=\"padding: 16px 24px; " ++
    (if optTruthy inp.bookingId then "border-bottom: 1px solid #e0f2fe;" else "") ++
    "\">\n\t\t\t\t\t\t\t\t\t\t\t\t\t\t<span style=\"display: block; font-size: 13px; font-weight: 600; color: #1e40af; font-family: \x27Sono\x27, Arial, sans-serif; margin-bottom: 4px;\">📱 M-Pesa Receipt</span>\n\t\t\t\t\t\t\t\t\t\t\t\t\t\t<span style=\"display: block; font-size: 15px; font-weight: 600; color: #0437F2; font-family: \x27Sono\x27, Arial, sans-serif;\">" ++
    escapeHtml (inp.mpesaReceipt.getD "") ++
    "</span>\n\t\t\t\t\t\t\t\t\t\t\t\t\t</td>\n\t\t\t\t\t\t\t\t\t\t\t\t</tr>\n\t\t\t\t\t\t\t\t\t\t\t\t"
   else "") ++
  "\n\t\t\t\t\t\t\t\t\t\t\t\t" ++
  (if optTruthy inp.bookingId then
    "\n\t\t\t\t\t\t\t\t\t\t\t\t<tr>\n\t\t\t\t\t\t\t\t\t\t\t\t\t<td style=\"padding: 16px 24px;\">\n\t\t\t\t\t\t\t\t\t\t\t\t\t\t<span style=\"display: block; font-size: 13px; font-weight: 600; color: #1e40af; font-family: \x27Sono\x27, Arial, sans-serif; margin-bottom: 4px;\">🏠 Booking Reference</span>\n\t\t\t\t\t\t\t\t\t\t\t\t\t\t<span style=\"display: block; font-size: 15px; font-weight: 600; color: #0437F2; font-family: \x27Sono\x27, Arial, sans-serif;\">" ++
    escapeHtml (inp.bookingId.getD "") ++
    "</span>\n\t\t\t\t\t\t\t\t\t\t\t\t\t</td>\n\t\t\t\t\t\t\t\t\t\t\t\t</tr>\n\t\t\t\t\t\t\t\t\t\t\t\t"
   else "") ++
  "\n\t\t\t\t\t\t\t\t\t\t\t</table>\n\t\t\t\t\t\t\t\t\t\t</td>\n\t\t\t\t\t\t\t\t\t</tr>\n\t\t\t\t\t\t\t\t</table>\n\t\t\t\t\t\t\t\t\n\t\t\t\t\t\t\t\t" ++
  (if optTruthy inp.extraMessage then
    "\n\t\t\t\t\t\t\t\t<table role=\"presentation\" width=\"100%\" cellspacing=\"0\" cellpadding=\"0\" border=\"0\" style=\"margin-top: 24px; background: linear-gradient(135deg, #dbeafe 0%, #fef3c7 100%); border-radius: 10px; border: 2px solid #0437F2; border-left: 6px solid #10b981;\">\n\t\t\t\t\t\t\t\t\t<tr>\n\t\t\t\t\t\t\t\t\t\t<td style=\"padding: 18px 24px;\">\n\t\t\t\t\t\t\t\t\t\t\t<p style=\"margin: 0; font-size: 13px; color: #1e3a8a; line-height: 1.6; font-family: \x27Sono\x27, Arial, sans-serif;\">\n\t\t\t\t\t\t\t\t\t\t\t\t<strong style=\"color: #0437F2; font-size: 14px;\">📌 Important Note:</strong><br/>\n\t\t\t\t\t\t\t\t\t\t\t\t<span style=\"margin-top: 6px; display: inline-block; font-size: 13px;\">" ++
    escapeHtml (inp.extraMessage.getD "") ++
    "</span>\n\t\t\t\t\t\t\t\t\t\t\t</p>\n\t\t\t\t\t\t\t\t\t\t</td>\n\t\t\t\t\t\t\t\t\t</tr>\n\t\t\t\t\t\t\t\t</table>\n\t\t\t\t\t\t\t\t"
   else "") ++
  "\n\t\t\t\t\t\t\t\t\n\t\t\t\t\t\t\t\t<!\x2d\x2d Call to action \x2d\x2d>\n\t\t\t\t\t\t\t\t<table role=\"presentation\" width=\"100%\" cellspacing=\"0\" cellpadding=\"0\" border=\"0\" style=\"margin-top: 32px;\">\n\t\t\t\t\t\t\t\t\t<tr>\n\t\t\t\t\t\t\t\t\t\t<td align=\"center\" style=\"padding: 18px 24px; background: linear-gradient(135deg, #0437F2 0%, #0284c7 100%); border-radius: 10px; box-shadow: 0 4px 12px rgba(4, 55, 242, 0.3);\">\n\t\t\t\t\t\t\t\t\t\t\t<p style=\"margin: 0; font-size: 13px; color: #ffffff; line-height: 1.6; font-family: \x27Sono\x27, Arial, sans-serif; font-weight: 500;\">\n\t\t\t\t\t\t\t\t\t\t\t\t" ++
  (if isRefundTitle inp.paymentTitle then
    "💙 Thank you for your understanding. We look forward to serving you again!"
   else "🎉 You\x27re all set! Happy hosting.") ++
  "\n\t\t\t\t\t\t\t\t\t\t\t</p>\n\t\t\t\t\t\t\t\t\t\t</td>\n\t\t\t\t\t\t\t\t\t</tr>\n\t\t\t\t\t\t\t\t</table>\n\t\t\t\t\t\t\t</td>\n\t\t\t\t\t\t</tr>\n\t\t\t\t\t\t\n\t\t\t\t\t\t<!\x2d\x2d Footer \x2d\x2d>\n\t\t\t\t\t\t<tr>\n\t\t\t\t\t\t\t<td style=\"background-color: #f0f9ff; padding: 28px 30px; text-align: center; border-top: 2px solid #bfdbfe;\">\n\t\t\t\t\t\t\t\t<p style=\"margin: 0 0 8px 0; font-size: 12px; color: #1e40af; line-height: 1.6; font-family: \x27Sono\x27, Arial, sans-serif; font-weight: 500;\">\n\t\t\t\t\t\t\t\t\tThis is an automated confirmation from MyStay App.<br/>\n\t\t\t\t\t\t\t\t\tNeed help? Contact our support team anytime.\n\t\t\t\t\t\t\t\t</p>\n\t\t\t\t\t\t\t\t<p style=\"margin: 8px 0 0 0; font-size: 11px; color: #0437F2; font-family: \x27Sono\x27, Arial, sans-serif; font-weight: 600;\">\n\t\t\t\t\t\t\t\t\t© " ++
  toString year ++
  " MyStay. All rights reserved.\n\t\t\t\t\t\t\t\t</p>\n\t\t\t\t\t\t\t</td>\n\t\t\t\t\t\t</tr>\n\t\t\t\t\t</table>\n\t\t\t\t</td>\n\t\t\t</tr>\n\t\t</table>\n\t</body>\n</html>"

/-- The five styling locals that `buildHostHtml` (src/server.js lines
716-748) selects from `emailType` via its if/else chain. -/
structure HostStyle where
  bannerText : String
  bannerColor : String
  iconEmoji : String
  iconBgColor : String
  iconShadow : String

/-- The if/else chain of `buildHostHtml` assigning `bannerText`,
`bannerColor`, `iconEmoji`, `iconBgColor`, `iconShadow` (lines 718-748);
the trailing `else` branch is the `submitted` styling. -/
def hostStyle (emailType : String) : HostStyle :=
  if emailType = "verified" then
    ⟨"✓ Host Verified", "linear-gradient(90deg, #10b981 0%, #059669 100%)", "✅",
      "linear-gradient(135deg, #10b981 0%, #059669 100%)", "rgba(16, 185, 129, 0.4)"⟩
  else if emailType = "verification_rejected" then
    ⟨"⚠ Verification Not Approved", "linear-gradient(90deg, #ef4444 0%, #dc2626 100%)", "❌",
      "linear-gradient(135deg, #ef4444 0%, #dc2626 100%)", "rgba(239, 68, 68, 0.4)"⟩
  else if emailType = "published" then
    ⟨"✓ Listing Published", "linear-gradient(90deg, #10b981 0%, #059669 100%)", "🎉",
      "linear-gradient(135deg, #10b981 0%, #059669 100%)", "rgba(16, 185, 129, 0.4)"⟩
  else if emailType = "rejected" then
    ⟨"⚠ Listing Not Approved", "linear-gradient(90deg, #ef4444 0%, #dc2626 100%)", "❌",
      "linear-gradient(135deg, #ef4444 0%, #dc2626 100%)", "rgba(239, 68, 68, 0.4)"⟩
  else
    ⟨"✓ Listing Submitted", "linear-gradient(90deg, #10b981 0%, #059669 100%)", "📝",
      "linear-gradient(135deg, #10b981 0%, #059669 100%)", "rgba(16, 185, 129, 0.4)"⟩

/-- Input record of `buildHostHtml` (destructured parameter, line 708). -/
structure HostInput where
  hostName : String := ""
  listingName : String
  emailType : String := "submitted"
  rejectionReason : Option String := none
  verificationRejectionReason : Option String := none

/-- `buildHostHtml` from src/server.js (lines 708-958): the host
notification HTML template (submitted / published / rejected / verified /
verification_rejected).  The template literal is reproduced chunk for
chunk; `${...}` holes become the corresponding Lean expressions and the
`isVerified`/`isRejected`/... flags are inlined as equalities on
`emailType`.  `year` stands for `new Date().getFullYear()`. -/
def buildHostHtml (inp : HostInput) (year : Nat) : String :=
  "<!doctype html>\n<html>\n\t<head>\n\t\t<meta charset=\"utf-8\"/>\n\t\t<meta name=\"viewport\" content=\"width=device-width, initial-scale=1.0\"/>\n\t\t<link href=\"https://fonts.googleapis.com/css2?family=Sono:wght@400;500;600;700&display=swap\" rel=\"stylesheet\">\n\t\t<style>\n\t\t\tbody \x7b\n\t\t\t\tmargin: 0;\n\t\t\t\tpadding: 0;\n\t\t\t\tbackground-color: #e8f4f8;\n\t\t\t\tfont-family: \x27Sono\x27, Arial, sans-serif;\n\t\t\t\x7d\n\t\t</style>\n\t</head>\n\t<body style=\"margin: 0; padding: 0; background-color: #e8f4f8; font-family: \x27Sono\x27, Arial, sans-serif;\">\n\t\t<table role=\"presentation\" width=\"100%\" cellspacing=\"0\" cellpadding=\"0\" border=\"0\" style=\"background-color: #e8f4f8; padding: 40px 20px;\">\n\t\t\t<tr>\n\t\t\t\t<td align=\"center\">\n\t\t\t\t\t<!\x2d\x2d Main container with dark blue border \x2d\x2d>\n\t\t\t\t\t<table role=\"presentation\" width=\"600\" cellspacing=\"0\" cellpadding=\"0\" border=\"0\" style=\"max-width: 600px; border-radius: 20px; overflow: hidden; border: 4px solid #0437F2; box-shadow: 0 8px 32px rgba(4, 55, 242, 0.15);\">\n\t\t\t\t\t\t\n\t\t\t\t\t\t<!\x2d\x2d Header with light blue to green gradient and icons \x2d\x2d>\n\t\t\t\t\t\t<tr>\n\t\t\t\t\t\t\t<td align=\"center\" style=\"background: linear-gradient(135deg, #d4ebf7 0%, #c8e6d5 100%); padding: 40px 30px 30px 30px;\">\n\t\t\t\t\t\t\t\t<!\x2d\x2d Status Icon Circle \x2d\x2d>\n\t\t\t\t\t\t\t\t<table role=\"presentation\" cellspacing=\"0\" cellpadding=\"0\" border=\"0\" style=\"margin: 0 auto 20px;\">\n\t\t\t\t\t\t\t\t\t<tr>\n\t\t\t\t\t\t\t\t\t\t<td align=\"center\" style=\"background: " ++
  (hostStyle inp.emailType).iconBgColor ++
  "; width: 100px; height: 100px; border-radius: 50%; box-shadow: 0 6px 20px " ++
  (hostStyle inp.emailType).iconShadow ++
  ";\">\n\t\t\t\t\t\t\t\t\t\t\t" ++
  (if inp.emailType = "rejected" ∨ inp.emailType = "verification_rejected" then
    "\n\t\t\t\t\t\t\t\t\t\t\t<span style=\"display: inline-block; font-size: 50px; margin-top: 25px;\">❌</span>\n\t\t\t\t\t\t\t\t\t\t\t"
   else if inp.emailType = "verified" then
    "\n\t\t\t\t\t\t\t\t\t\t\t<span style=\"display: inline-block; font-size: 50px; margin-top: 25px;\">✅</span>\n\t\t\t\t\t\t\t\t\t\t\t"
   else
    "\n\t\t\t\t\t\t\t\t\t\t\t<img src=\"cid:checkmark-icon\" alt=\"Success\" style=\"width: 60px; height: 60px; margin-top: 20px;\"/>\n\t\t\t\t\t\t\t\t\t\t\t") ++
  "\n\t\t\t\t\t\t\t\t\t\t</td>\n\t\t\t\t\t\t\t\t\t</tr>\n\t\t\t\t\t\t\t\t</table>\n\t\t\t\t\t\t\t\t\n\t\t\t\t\t\t\t\t<!\x2d\x2d MyStay Branding \x2d\x2d>\n\t\t\t\t\t\t\t\t<table role=\"presentation\" cellspacing=\"0\" cellpadding=\"0\" border=\"0\" style=\"margin: 0 auto;\">\n\t\t\t\t\t\t\t\t\t<tr>\n\t\t\t\t\t\t\t\t\t\t<td align=\"center\">\n\t\t\t\t\t\t\t\t\t\t\t<img src=\"cid:mystay-icon\" alt=\"MyStay App Icon\" style=\"width: 48px; height: 48px; border-radius: 10px; vertical-align: middle; margin-right: 12px; box-shadow: 0 2px 8px rgba(0, 0, 0, 0.1);\"/>\n\t\t\t\t\t\t\t\t\t\t\t<span style=\"font-size: 26px; font-weight: 700; color: #0437F2; font-family: \x27Sono\x27, Arial, sans-serif; vertical-align: middle;\">MyStay App</span>\n\t\t\t\t\t\t\t\t\t\t</td>\n\t\t\t\t\t\t\t\t\t</tr>\n\t\t\t\t\t\t\t\t</table>\n\t\t\t\t\t\t\t</td>\n\t\t\t\t\t\t</tr>\n\t\t\t\t\t\t\n\t\t\t\t\t\t<!\x2d\x2d Status Message Banner \x2d\x2d>\n\t\t\t\t\t\t<tr>\n\t\t\t\t\t\t\t<td align=\"center\" style=\"background: " ++
  (hostStyle inp.emailType).bannerColor ++
  "; padding: 16px 30px;\">\n\t\t\t\t\t\t\t\t<h2 style=\"margin: 0; font-size: 20px; font-weight: 700; color: #ffffff; font-family: \x27Sono\x27, Arial, sans-serif; text-transform: uppercase; letter-spacing: 0.5px;\">" ++
  (hostStyle inp.emailType).bannerText ++
  "</h2>\n\t\t\t\t\t\t\t</td>\n\t\t\t\t\t\t</tr>\n\t\t\t\t\t\t\n\t\t\t\t\t\t<!\x2d\x2d Main content with light blue-green gradient \x2d\x2d>\n\t\t\t\t\t\t<tr>\n\t\t\t\t\t\t\t<td style=\"background: linear-gradient(180deg, #e0f2fe 0%, #d1fae5 100%); padding: 40px 30px;\">\n\t\t\t\t\t\t\t\t<p style=\"margin: 0 0 20px 0; font-size: 15px; color: #1e40af; line-height: 1.6; font-family: \x27Sono\x27, Arial, sans-serif;\">\n\t\t\t\t\t\t\t\t\tHi <strong>" ++
  escapeHtml (if inp.hostName ≠ "" then inp.hostName else "there") ++
  "</strong>,\n\t\t\t\t\t\t\t\t</p>\n\t\t\t\t\t\t\t\t\n\t\t\t\t\t\t\t\t" ++
  (if inp.emailType = "verified" then
    "\n\t\t\t\t\t\t\t\t<p style=\"margin: 0 0 32px 0; font-size: 14px; color: #166534; line-height: 1.7; font-family: \x27Sono\x27, Arial, sans-serif;\">\n\t\t\t\t\t\t\t\t\tCongratulations! Your host account has been <strong style=\"color: #0437F2;\">successfully verified</strong>. You can now start creating and managing your listings on MyStay App.\n\t\t\t\t\t\t\t\t</p>\n\t\t\t\t\t\t\t\t<p style=\"margin: 0 0 32px 0; font-size: 14px; color: #166534; line-height: 1.7; font-family: \x27Sono\x27, Arial, sans-serif;\">\n\t\t\t\t\t\t\t\t\tWelcome to the MyStay community! We\x27re excited to have you as part of our platform.\n\t\t\t\t\t\t\t\t</p>\n\t\t\t\t\t\t\t\t"
   else if inp.emailType = "verification_rejected" then
    "\n\t\t\t\t\t\t\t\t<p style=\"margin: 0 0 24px 0; font-size: 14px; color: #991b1b; line-height: 1.7; font-family: \x27Sono\x27, Arial, sans-serif;\">\n\t\t\t\t\t\t\t\t\tWe\x27re sorry to inform you that your <strong style=\"color: #0437F2;\">host verification request</strong> was not approved after review.\n\t\t\t\t\t\t\t\t</p>\n\t\t\t\t\t\t\t\t"
   else if inp.emailType = "published" then
    "\n\t\t\t\t\t\t\t\t<p style=\"margin: 0 0 32px 0; font-size: 14px; color: #166534; line-height: 1.7; font-family: \x27Sono\x27, Arial, sans-serif;\">\n\t\t\t\t\t\t\t\t\tWe are pleased to inform you that your submission <strong style=\"color: #0437F2;\">\x27" ++
    escapeHtml inp.listingName ++
    "\x27</strong> was just published on our app. Thank you.\n\t\t\t\t\t\t\t\t</p>\n\t\t\t\t\t\t\t\t"
   else if inp.emailType = "rejected" then
    "\n\t\t\t\t\t\t\t\t<p style=\"margin: 0 0 24px 0; font-size: 14px; color: #991b1b; line-height: 1.7; font-family: \x27Sono\x27, Arial, sans-serif;\">\n\t\t\t\t\t\t\t\t\tWe\x27re sorry to inform you that your listing <strong style=\"color: #0437F2;\">\x27" ++
    escapeHtml inp.listingName ++
    "\x27</strong> was not approved after review.\n\t\t\t\t\t\t\t\t</p>\n\t\t\t\t\t\t\t\t"
   else
    "\n\t\t\t\t\t\t\t\t<p style=\"margin: 0 0 32px 0; font-size: 14px; color: #166534; line-height: 1.7; font-family: \x27Sono\x27, Arial, sans-serif;\">\n\t\t\t\t\t\t\t\t\tThank you for submitting your listing <strong style=\"color: #0437F2;\">\x27" ++
    escapeHtml inp.listingName ++
    "\x27</strong>.\n\t\t\t\t\t\t\t\t</p>\n\t\t\t\t\t\t\t\t") ++
  "\n\t\t\t\t\t\t\t\t\n\t\t\t\t\t\t\t\t" ++
  (if inp.emailType = "verified" ∨ inp.emailType = "verification_rejected" then
    "\n\t\t\t\t\t\t\t\t<!\x2d\x2d Verification details card \x2d\x2d>\n\t\t\t\t\t\t\t\t<table role=\"presentation\" width=\"100%\" cellspacing=\"0\" cellpadding=\"0\" border=\"0\" style=\"background-color: #ffffff; border-radius: 12px; overflow: hidden; border: 2px solid #0437F2; box-shadow: 0 4px 12px rgba(4, 55, 242, 0.1);\">\n\t\t\t\t\t\t\t\t\t<tr>\n\t\t\t\t\t\t\t\t\t\t<td style=\"padding: 0;\">\n\t\t\t\t\t\t\t\t\t\t\t<!\x2d\x2d Details header \x2d\x2d>\n\t\t\t\t\t\t\t\t\t\t\t<table role=\"presentation\" width=\"100%\" cellspacing=\"0\" cellpadding=\"0\" border=\"0\">\n\t\t\t\t\t\t\t\t\t\t\t\t<tr>\n\t\t\t\t\t\t\t\t\t\t\t\t\t<td style=\"background: linear-gradient(90deg, #0437F2 0%, #0284c7 100%); padding: 14px 24px;\">\n\t\t\t\t\t\t\t\t\t\t\t\t\t\t<span style=\"font-size: 14px; font-weight: 700; color: #ffffff; font-family: \x27Sono\x27, Arial, sans-serif; text-transform: uppercase; letter-spacing: 0.5px;\">" ++
    (if inp.emailType = "verified" then "Verification Status" else "Verification Information") ++
    "</span>\n\t\t\t\t\t\t\t\t\t\t\t\t\t</td>\n\t\t\t\t\t\t\t\t\t\t\t\t</tr>\n\t\t\t\t\t\t\t\t\t\t\t</table>\n\t\t\t\t\t\t\t\t\t\t\t\n\t\t\t\t\t\t\t\t\t\t\t<!\x2d\x2d Details content \x2d\x2d>\n\t\t\t\t\t\t\t\t\t\t\t<table role=\"presentation\" width=\"100%\" cellspacing=\"0\" cellpadding=\"0\" border=\"0\">\n\t\t\t\t\t\t\t\t\t\t\t\t" ++
    (if inp.emailType = "verified" then
      "\n\t\t\t\t\t\t\t\t\t\t\t\t<tr>\n\t\t\t\t\t\t\t\t\t\t\t\t\t<td style=\"padding: 20px 24px;\">\n\t\t\t\t\t\t\t\t\t\t\t\t\t\t<span style=\"display: block; font-size: 13px; font-weight: 600; color: #1e40af; font-family: \x27Sono\x27, Arial, sans-serif; margin-bottom: 8px;\">✅ Account Status</span>\n\t\t\t\t\t\t\t\t\t\t\t\t\t\t<span style=\"display: block; font-size: 18px; font-weight: 700; color: #10b981; font-family: \x27Sono\x27, Arial, sans-serif;\">Verified</span>\n\t\t\t\t\t\t\t\t\t\t\t\t\t</td>\n\t\t\t\t\t\t\t\t\t\t\t\t</tr>\n\t\t\t\t\t\t\t\t\t\t\t\t"
     else "") ++
    "\n\t\t\t\t\t\t\t\t\t\t\t\t" ++
    (if inp.emailType = "verification_rejected" ∧ optTruthy inp.verificationRejectionReason then
      "\n\t\t\t\t\t\t\t\t\t\t\t\t<tr>\n\t\t\t\t\t\t\t\t\t\t\t\t\t<td style=\"padding: 20px 24px;\">\n\t\t\t\t\t\t\t\t\t\t\t\t\t\t<span style=\"display: block; font-size: 13px; font-weight: 600; color: #991b1b; font-family: \x27Sono\x27, Arial, sans-serif; margin-bottom: 8px;\">📋 Rejection Reason</span>\n\t\t\t\t\t\t\t\t\t\t\t\t\t\t<span style=\"display: block; font-size: 14px; color: #7f1d1d; line-height: 1.6; font-family: \x27Sono\x27, Arial, sans-serif;\">" ++
      escapeHtml (inp.verificationRejectionReason.getD "") ++
      "</span>\n\t\t\t\t\t\t\t\t\t\t\t\t\t</td>\n\t\t\t\t\t\t\t\t\t\t\t\t</tr>\n\t\t\t\t\t\t\t\t\t\t\t\t"
     else "") ++
    "\n\t\t\t\t\t\t\t\t\t\t\t</table>\n\t\t\t\t\t\t\t\t\t\t</td>\n\t\t\t\t\t\t\t\t\t</tr>\n\t\t\t\t\t\t\t\t</table>\n\t\t\t\t\t\t\t\t"
   else
    "\n\t\t\t\t\t\t\t\t<!\x2d\x2d Listing details card \x2d\x2d>\n\t\t\t\t\t\t\t\t<table role=\"presentation\" width=\"100%\" cellspacing=\"0\" cellpadding=\"0\" border=\"0\" style=\"background-color: #ffffff; border-radius: 12px; overflow: hidden; border: 2px solid #0437F2; box-shadow: 0 4px 12px rgba(4, 55, 242, 0.1);\">\n\t\t\t\t\t\t\t\t\t<tr>\n\t\t\t\t\t\t\t\t\t\t<td style=\"padding: 0;\">\n\t\t\t\t\t\t\t\t\t\t\t<!\x2d\x2d Details header \x2d\x2d>\n\t\t\t\t\t\t\t\t\t\t\t<table role=\"presentation\" width=\"100%\" cellspacing=\"0\" cellpadding=\"0\" border=\"0\">\n\t\t\t\t\t\t\t\t\t\t\t\t<tr>\n\t\t\t\t\t\t\t\t\t\t\t\t\t<td style=\"background: linear-gradient(90deg, #0437F2 0%, #0284c7 100%); padding: 14px 24px;\">\n\t\t\t\t\t\t\t\t\t\t\t\t\t\t<span style=\"font-size: 14px; font-weight: 700; color: #ffffff; font-family: \x27Sono\x27, Arial, sans-serif; text-transform: uppercase; letter-spacing: 0.5px;\">Listing Information</span>\n\t\t\t\t\t\t\t\t\t\t\t\t\t</td>\n\t\t\t\t\t\t\t\t\t\t\t\t</tr>\n\t\t\t\t\t\t\t\t\t\t\t</table>\n\t\t\t\t\t\t\t\t\t\t\t\n\t\t\t\t\t\t\t\t\t\t\t<!\x2d\x2d Details content \x2d\x2d>\n\t\t\t\t\t\t\t\t\t\t\t<table role=\"presentation\" width=\"100%\" cellspacing=\"0\" cellpadding=\"0\" border=\"0\">\n\t\t\t\t\t\t\t\t\t\t\t\t<tr>\n\t\t\t\t\t\t\t\t\t\t\t\t\t<td style=\"padding: 20px 24px; " ++
    (if inp.emailType = "rejected" then "border-bottom: 1px solid #fee2e2;" else "") ++
    "\">\n\t\t\t\t\t\t\t\t\t\t\t\t\t\t<span style=\"display: block; font-size: 13px; font-weight: 600; color: #1e40af; font-family: \x27Sono\x27, Arial, sans-serif; margin-bottom: 8px;\">" ++
    (hostStyle inp.emailType).iconEmoji ++
    " Listing Name</span>\n\t\t\t\t\t\t\t\t\t\t\t\t\t\t<span style=\"display: block; font-size: 18px; font-weight: 700; color: #0437F2; font-family: \x27Sono\x27, Arial, sans-serif;\">" ++
    escapeHtml inp.listingName ++
    "</span>\n\t\t\t\t\t\t\t\t\t\t\t\t\t</td>\n\t\t\t\t\t\t\t\t\t\t\t\t</tr>\n\t\t\t\t\t\t\t\t\t\t\t\t" ++
    (if inp.emailType = "rejected" ∧ optTruthy inp.rejectionReason then
      "\n\t\t\t\t\t\t\t\t\t\t\t\t<tr>\n\t\t\t\t\t\t\t\t\t\t\t\t\t<td style=\"padding: 20px 24px;\">\n\t\t\t\t\t\t\t\t\t\t\t\t\t\t<span style=\"display: block; font-size: 13px; font-weight: 600; color: #991b1b; font-family: \x27Sono\x27, Arial, sans-serif; margin-bottom: 8px;\">📋 Rejection Reason</span>\n\t\t\t\t\t\t\t\t\t\t\t\t\t\t<span style=\"display: block; font-size: 14px; color: #7f1d1d; line-height: 1.6; font-family: \x27Sono\x27, Arial, sans-serif;\">" ++
      escapeHtml (inp.rejectionReason.getD "") ++
      "</span>\n\t\t\t\t\t\t\t\t\t\t\t\t\t</td>\n\t\t\t\t\t\t\t\t\t\t\t\t</tr>\n\t\t\t\t\t\t\t\t\t\t\t\t"
     else "") ++
    "\n\t\t\t\t\t\t\t\t\t\t\t</table>\n\t\t\t\t\t\t\t\t\t\t</td>\n\t\t\t\t\t\t\t\t\t</tr>\n\t\t\t\t\t\t\t\t</table>\n\t\t\t\t\t\t\t\t") ++
  "\n\t\t\t\t\t\t\t\t\n\t\t\t\t\t\t\t\t" ++
  (if inp.emailType = "rejected" ∨ inp.emailType = "verification_rejected" then
    "\n\t\t\t\t\t\t\t\t<!\x2d\x2d Rejection notice box \x2d\x2d>\n\t\t\t\t\t\t\t\t<table role=\"presentation\" width=\"100%\" cellspacing=\"0\" cellpadding=\"0\" border=\"0\" style=\"margin-top: 24px; background: linear-gradient(135deg, #fef2f2 0%, #fee2e2 100%); border-radius: 10px; border: 2px solid #ef4444; border-left: 6px solid #dc2626;\">\n\t\t\t\t\t\t\t\t\t<tr>\n\t\t\t\t\t\t\t\t\t\t<td style=\"padding: 18px 24px;\">\n\t\t\t\t\t\t\t\t\t\t\t<p style=\"margin: 0; font-size: 13px; color: #991b1b; line-height: 1.6; font-family: \x27Sono\x27, Arial, sans-serif;\">\n\t\t\t\t\t\t\t\t\t\t\t\t<strong style=\"color: #dc2626; font-size: 14px;\">💡 Next Steps:</strong><br/>\n\t\t\t\t\t\t\t\t\t\t\t\t<span style=\"margin-top: 6px; display: inline-block; font-size: 13px;\">" ++
    (if inp.emailType = "verification_rejected" then
      "If you\x27d like more information or wish to resubmit your verification request with corrections, please contact our support team. We\x27re here to help!"
     else
      "If you\x27d like more information or wish to resubmit your listing with corrections, please contact our support team. We\x27re here to help!") ++
    "</span>\n\t\t\t\t\t\t\t\t\t\t\t</p>\n\t\t\t\t\t\t\t\t\t\t</td>\n\t\t\t\t\t\t\t\t\t</tr>\n\t\t\t\t\t\t\t\t</table>\n\t\t\t\t\t\t\t\t"
   else "") ++
  "\n\t\t\t\t\t\t\t\t\n\t\t\t\t\t\t\t\t<!\x2d\x2d Call to action \x2d\x2d>\n\t\t\t\t\t\t\t\t<table role=\"presentation\" width=\"100%\" cellspacing=\"0\" cellpadding=\"0\" border=\"0\" style=\"margin-top: 32px;\">\n\t\t\t\t\t\t\t\t\t<tr>\n\t\t\t\t\t\t\t\t\t\t<td align=\"center\" style=\"padding: 18px 24px; background: " ++
  (if inp.emailType = "rejected" ∨ inp.emailType = "verification_rejected" then
    "linear-gradient(135deg, #ef4444 0%, #dc2626 100%)"
   else "linear-gradient(135deg, #0437F2 0%, #0284c7 100%)") ++
  "; border-radius: 10px; box-shadow: 0 4px 12px " ++
  (if inp.emailType = "rejected" ∨ inp.emailType = "verification_rejected" then
    "rgba(239, 68, 68, 0.3)"
   else "rgba(4, 55, 242, 0.3)") ++
  ";\">\n\t\t\t\t\t\t\t\t\t\t\t<p style=\"margin: 0; font-size: 13px; color: #ffffff; line-height: 1.6; font-family: \x27Sono\x27, Arial, sans-serif; font-weight: 500;\">\n\t\t\t\t\t\t\t\t\t\t\t\t" ++
  (if inp.emailType = "verified" then
    "🎉 Welcome to MyStay! You can now start creating your first listing and begin hosting guests."
   else if inp.emailType = "verification_rejected" then
    "💙 We appreciate your understanding. Please contact support if you have any questions."
   else if inp.emailType = "published" then
    "🎊 Congratulations! Your listing is now live and visible to guests."
   else if inp.emailType = "rejected" then
    "💙 We appreciate your understanding. Please contact support if you have any questions."
   else
    "⏳ Your listing is under review. We\x27ll notify you once it\x27s published.") ++
  "\n\t\t\t\t\t\t\t\t\t\t\t</p>\n\t\t\t\t\t\t\t\t\t\t</td>\n\t\t\t\t\t\t\t\t\t</tr>\n\t\t\t\t\t\t\t\t</table>\n\t\t\t\t\t\t\t</td>\n\t\t\t\t\t\t</tr>\n\t\t\t\t\t\t\n\t\t\t\t\t\t<!\x2d\x2d Footer \x2d\x2d>\n\t\t\t\t\t\t<tr>\n\t\t\t\t\t\t\t<td style=\"background-color: #f0f9ff; padding: 28px 30px; text-align: center; border-top: 2px solid #bfdbfe;\">\n\t\t\t\t\t\t\t\t<p style=\"margin: 0 0 8px 0; font-size: 12px; color: #1e40af; line-height: 1.6; font-family: \x27Sono\x27, Arial, sans-serif; font-weight: 500;\">\n\t\t\t\t\t\t\t\t\tThis is an automated notification from MyStay App.<br/>\n\t\t\t\t\t\t\t\t\tNeed help? Contact our support team anytime.\n\t\t\t\t\t\t\t\t</p>\n\t\t\t\t\t\t\t\t<p style=\"margin: 8px 0 0 0; font-size: 11px; color: #0437F2; font-family: \x27Sono\x27, Arial, sans-serif; font-weight: 600;\">\n\t\t\t\t\t\t\t\t\t© " ++
  toString year ++
  " MyStay. All rights reserved.\n\t\t\t\t\t\t\t\t</p>\n\t\t\t\t\t\t\t</td>\n\t\t\t\t\t\t</tr>\n\t\t\t\t\t</table>\n\t\t\t\t</td>\n\t\t\t</tr>\n\t\t</table>\n\t</body>\n</html>"

/-- Inline image attachment of `mailOptions` (filename and content id;
the filesystem path of the bundled image is an environment concern and is
not part of the modelled state). -/
structure Attachment where
  filename : String
  cid : String
  deriving DecidableEq

/-- The fixed attachment list both handlers pass to `sendMail`
(src/server.js lines 1149-1160 and 1344-1355). -/
def defaultAttachments : List Attachment :=
  [⟨"mystay-icon.png", "mystay-icon"⟩, ⟨"checkmark.png", "checkmark-icon"⟩]

/-- Environment configuration read from `process.env` at startup, plus the
clock year used by the templates. -/
structure Config where
  fromName : Option String
  fromEmail : Option String
  smtpUser : Option String
  year : Nat

/-- The `from` field of `mailOptions`:
`` `${FROM_NAME || 'MyStay'} <${FROM_EMAIL || SMTP_USER}>` ``. -/
def fromField (cfg : Config) : String :=
  jsOr cfg.fromName "MyStay" ++ " <" ++
    (if optTruthy cfg.fromEmail then cfg.fromEmail.getD "" else optDisplay cfg.smtpUser) ++ ">"

/-- The message handed to `transporter.sendMail` (`mailOptions`). -/
structure Envelope where
  fromLine : String  -- the source field is named from, a Lean keyword
  toAddr : String  -- the source field is named to, a Lean keyword
  subject : String
  text : String
  html : String
  attachments : List Attachment

/-- Outcome of one request to a send endpoint: an HTTP 400 validation
error, an HTTP 404 not-found error, or a composed envelope handed to the
transporter (the transport itself is an external collaborator; a composed
envelope means the send was attempted with exactly this message). -/
inductive Outcome where
  | validationError (msg : String)
  | notFound (msg : String)
  | sent (env : Envelope)

/-- Result of a handler run: the outcome plus whether `lookupRecipient`
was invoked during the run. -/
structure ComposeResult where
  outcome : Outcome
  lookedUp : Bool

/-- What `lookupRecipient` returns to the handlers: `{ email, name }`. -/
structure Resolved where
  email : Option String
  name : Option String

/-- Request body of `POST /api/v1/email/send` (src/server.js lines
1063-1072).  All fields are optional JSON fields; `amount` may be any
JSON value. -/
structure TxRequest where
  mpesa_receipt : Option String := none
  payment_title : Option String := none
  amount : JsVal := .vUndef
  booking_id : Option String := none
  email : Option String := none
  recipient_id : Option String := none
  recipient_name : Option String := none
  extra_message : Option String := none

/-- Plain-text body built by the transaction handler (line 1129). -/
def txText (finalRecipientName : String) (req : TxRequest) : String :=
  req.payment_title.getD "" ++ "\n\nHi " ++
    (if finalRecipientName ≠ "" then finalRecipientName else "there") ++
    ",\n\nPayment received.\nAmount: " ++ jsString req.amount ++
    "\nM-Pesa Receipt: " ++ jsOr req.mpesa_receipt "Processing..." ++ "\n" ++
    (if optTruthy req.booking_id then "Booking ID: " ++ req.booking_id.getD "" ++ "\n" else "") ++
    "\n" ++
    (if optTruthy req.extra_message then "\n" ++ req.extra_message.getD "" else "")

/-- The envelope (`mailOptions`) the transaction handler builds once the
target email and final recipient name are resolved (lines 1119-1161). -/
def mkTxEnvelope (cfg : Config) (targetEmail finalRecipientName : String)
    (req : TxRequest) : Envelope :=
  { fromLine := fromField cfg
    toAddr := targetEmail
    subject := req.payment_title.getD ""
    text := txText finalRecipientName req
    html := buildHtml
      { recipientName := finalRecipientName
        paymentTitle := req.payment_title.getD ""
        mpesaReceipt := req.mpesa_receipt
        amount := req.amount
        bookingId := req.booking_id
        extraMessage := req.extra_message } cfg.year
    attachments := defaultAttachments }

/-- `POST /api/v1/email/send` (src/server.js lines 1060-1187), the
transaction message composer of the specification.  `resolver` abstracts
`lookupRecipient`; a `sent` outcome carries the envelope handed to the
transporter.  Control flow mirrors the handler: required-field validation,
then direct email vs. lookup, then envelope construction. -/
def composeTransactionSend (req : TxRequest) (resolver : String → Resolved)
    (cfg : Config) : ComposeResult :=
  if optTruthy req.payment_title = false ∨ req.amount = .vUndef ∨ req.amount = .vNull then
    ⟨.validationError "Missing required fields: payment_title and amount", false⟩
  else
    -- targetEmail := email ?? null ; finalRecipientName := recipient_name ?? ''
    if optTruthy req.email = false then
      if optTruthy req.recipient_id = false then
        ⟨.validationError "Provide either email or recipient_id", false⟩
      else
        let r := resolver (req.recipient_id.getD "")
        if optTruthy r.email = false then
          ⟨.notFound "Recipient email not found in database", true⟩
        else
          -- use looked up name only if recipient_name was not provided
          let finalName :=
            if req.recipient_name.getD "" = "" ∧ optTruthy r.name then r.name.getD ""
            else req.recipient_name.getD ""
          ⟨.sent (mkTxEnvelope cfg (r.email.getD "") finalName req), true⟩
    else
      ⟨.sent (mkTxEnvelope cfg (req.email.getD "") (req.recipient_name.getD "") req), false⟩

/-- Request body of `POST /api/v1/email/host/send` (src/server.js lines
1206-1214). -/
structure HostRequest where
  host_id : Option String := none
  host_email : Option String := none
  host_name : Option String := none
  listing_name : Option String := none
  email_type : Option String := none
  rejection_reason : Option String := none
  verification_rejection_reason : Option String := none

/-- Subject line of the host handler, per `email_type` (lines 1309-1324);
the trailing branch is unreachable after validation. -/
def hostSubject (req : HostRequest) : String :=
  if req.email_type = some "published" then
    "Your listing \x27" ++ optDisplay req.listing_name ++ "\x27 has been published"
  else if req.email_type = some "submitted" then
    "Your listing \x27" ++ optDisplay req.listing_name ++ "\x27 has been submitted"
  else if req.email_type = some "rejected" then
    "Your listing \x27" ++ optDisplay req.listing_name ++ "\x27 was not approved"
  else if req.email_type = some "verified" then
    "Your host account has been verified"
  else if req.email_type = some "verification_rejected" then
    "Host verification not approved"
  else ""

/-- Plain-text body of the host handler, per `email_type` (lines
1309-1324); the trailing branch is unreachable after validation. -/
def hostText (finalHostName : String) (req : HostRequest) : String :=
  if req.email_type = some "published" then
    "Hi " ++ (if finalHostName ≠ "" then finalHostName else "there") ++
      ",\n\nWe are pleased to inform you that your submission \x27" ++
      optDisplay req.listing_name ++ "\x27 was just published on our app. Thank you."
  else if req.email_type = some "submitted" then
    "Hi " ++ (if finalHostName ≠ "" then finalHostName else "there") ++
      ",\n\nThank you for submitting your listing \x27" ++ optDisplay req.listing_name ++ "\x27."
  else if req.email_type = some "rejected" then
    "Hi " ++ (if finalHostName ≠ "" then finalHostName else "there") ++
      ",\n\nWe\x27re sorry to inform you that your listing \x27" ++ optDisplay req.listing_name ++
      "\x27 was not approved after review.\n\nReason: " ++ optDisplay req.rejection_reason ++
      "\n\nIf you\x27d like more information or wish to try again, please contact our support team."
  else if req.email_type = some "verified" then
    "Hi " ++ (if finalHostName ≠ "" then finalHostName else "there") ++
      ",\n\nCongratulations! Your host account has been successfully verified. You can now start creating and managing your listings on MyStay App.\n\nWelcome to the MyStay community!"
  else if req.email_type = some "verification_rejected" then
    "Hi " ++ (if finalHostName ≠ "" then finalHostName else "there") ++
      ",\n\nWe\x27re sorry to inform you that your host verification request was not approved.\n\nReason: " ++
      optDisplay req.verification_rejection_reason ++
      "\n\nIf you\x27d like more information or wish to resubmit your verification, please contact our support team."
  else ""

/-- The envelope the host handler builds once the target email and final
host name are resolved (lines 1298-1356). -/
def mkHostEnvelope (cfg : Config) (targetEmail finalHostName : String)
    (req : HostRequest) : Envelope :=
  { fromLine := fromField cfg
    toAddr := targetEmail
    subject := hostSubject req
    text := hostText finalHostName req
    html := buildHostHtml
      { hostName := finalHostName
        listingName := jsOr req.listing_name ""
        emailType := req.email_type.getD ""
        rejectionReason := jsOrNull req.rejection_reason
        verificationRejectionReason := jsOrNull req.verification_rejection_reason } cfg.year
    attachments := defaultAttachments }

/-- `POST /api/v1/email/host/send` (src/server.js lines 1203-1382), the
host message composer of the specification.  The validation sequence
mirrors the handler: missing `email_type`, conditionally required
`listing_name` for the three listing email types, the closed `email_type`
enumeration, then the two conditionally required rejection reasons; all
validation happens before any lookup or envelope construction. -/
def composeHostSend (req : HostRequest) (resolver : String → Resolved)
    (cfg : Config) : ComposeResult :=
  -- isListingEmail := submitted | published | rejected (line 1218)
  if optTruthy req.email_type = false then
    ⟨.validationError "Missing required field: email_type", false⟩
  else if (req.email_type = some "submitted" ∨ req.email_type = some "published" ∨
      req.email_type = some "rejected") ∧ optTruthy req.listing_name = false then
    ⟨.validationError "Missing required field: listing_name (required for listing emails)", false⟩
  else if ¬ (req.email_type = some "submitted" ∨ req.email_type = some "published" ∨
      req.email_type = some "rejected" ∨ req.email_type = some "verified" ∨
      req.email_type = some "verification_rejected") then
    ⟨.validationError "email_type must be one of: submitted, published, rejected, verified, verification_rejected", false⟩
  else if req.email_type = some "rejected" ∧ optTruthy req.rejection_reason = false then
    ⟨.validationError "rejection_reason is required when email_type is \"rejected\"", false⟩
  else if req.email_type = some "verification_rejected" ∧
      optTruthy req.verification_rejection_reason = false then
    ⟨.validationError "verification_rejection_reason is required when email_type is \"verification_rejected\"", false⟩
  else
    if optTruthy req.host_email = false then
      if optTruthy req.host_id = false then
        ⟨.validationError "Provide either host_email or host_id", false⟩
      else
        let r := resolver (req.host_id.getD "")
        if optTruthy r.email = false then
          ⟨.notFound "Host email not found in database", true⟩
        else
          let finalName :=
            if req.host_name.getD "" = "" ∧ optTruthy r.name then r.name.getD ""
            else req.host_name.getD ""
          ⟨.sent (mkHostEnvelope cfg (r.email.getD "") finalName req), true⟩
    else
      ⟨.sent (mkHostEnvelope cfg (req.host_email.getD "") (req.host_name.getD "") req), false⟩

/-- One supabase `maybeSingle()` result: a possibly-absent row and a
possibly-absent error (carrying its error code). -/
structure SupabaseResult (α : Type) where
  data : Option α
  error : Option String

/-- Row shape selected from `profiles` (`id, email, role`). -/
structure ProfileRow where
  id : String
  email : Option String
  role : Option String

/-- Row shape selected from `guest_profiles` (`user_id, full_name`). -/
structure GuestProfileRow where
  user_id : String
  full_name : Option String

/-- Row shape selected from `host_profiles`
(`user_id, first_name, last_name`). -/
structure HostProfileRow where
  user_id : String
  first_name : Option String
  last_name : Option String

/-- The profile store as seen by `lookupRecipient`: three keyed tables. -/
structure Db where
  profiles : String → SupabaseResult ProfileRow
  guest_profiles : String → SupabaseResult GuestProfileRow
  host_profiles : String → SupabaseResult HostProfileRow

/-- Result of `lookupRecipient` together with bookkeeping of which queries
were issued during the call. -/
structure LookupOutcome where
  email : Option String
  name : Option String
  primaryQueried : Bool
  secondaryQueried : Bool
  deriving DecidableEq

/-- `lookupRecipient` from src/server.js (lines 986-1043).  The
`try`/`catch` of the source converts any unexpected exception into
`{email: null, name: null}`; in this total model every database response is
already a value, so the function returns a value on every input.  A
secondary-lookup error only produces a `console.warn` when its code is not
`PGRST116` ("no rows"); in both cases the name is read from the returned
`data` (`guest?.full_name ?? null`, and for hosts the trimmed
concatenation of `first_name`/`last_name` when a row is present). -/
def lookupRecipient (db : Db) (recipientId : String) : LookupOutcome :=
  if recipientId = "" then ⟨none, none, false, false⟩
  else
    let res := db.profiles recipientId
    if res.error.isSome then ⟨none, none, true, false⟩
    else
      let email := res.data.bind (·.email)
      let role := res.data.bind (·.role)
      if role = some "guest" then
        let g := db.guest_profiles recipientId
        ⟨email, g.data.bind (·.full_name), true, true⟩
      else if role = some "host" then
        let h := db.host_profiles recipientId
        match h.data with
        | some row =>
          ⟨email, some ((jsOr row.first_name "" ++ " " ++ jsOr row.last_name "").trim), true, true⟩
        | none => ⟨email, none, true, true⟩
      else ⟨email, none, true, false⟩

/-! ### Generic machinery: substring (non-)occurrence across concatenations -/

/-- `l.take n` is a prefix of `l`. -/
theorem take_isPre {α : Type} (l : List α) (n : Nat) : l.take n <+: l :=
  ⟨l.drop n, l.take_append_drop n⟩

/-- Decompose a suffix of an append. -/
theorem suf_split {α : Type} {l x y : List α} (h : l <:+ x ++ y) :
    l <:+ y ∨ ∃ z, z <:+ x ∧ l = z ++ y := by
  obtain ⟨s, hs⟩ := h
  rcases List.append_eq_append_iff.mp hs with ⟨a, hx, hl⟩ | ⟨c, _, hy⟩
  · exact Or.inr ⟨a, ⟨s, hx.symm⟩, hl⟩
  · exact Or.inl ⟨c, hy.symm⟩

/-- Decompose an infix of an append: the pattern lies in the left part, in
the right part, or splits as a nonempty proper prefix that is a suffix of
the left part followed by the rest as a prefix of the right part. -/
theorem infix_split {α : Type} {pat x y : List α} (h : pat <:+: x ++ y) :
    pat <:+: x ∨ pat <:+: y ∨
      ∃ k, 0 < k ∧ k < pat.length ∧ pat.take k <:+ x ∧ pat.drop k <+: y := by
  obtain ⟨s, t, hst⟩ := h
  rcases List.append_eq_append_iff.mp hst with ⟨a, hx, -⟩ | ⟨c, hsp, hy⟩
  · exact Or.inl ⟨s, a, hx.symm⟩
  · rcases List.append_eq_append_iff.mp hsp with ⟨a, hxa, hpa⟩ | ⟨d, _, hc⟩
    · rcases eq_or_ne a [] with rfl | ha
      · refine Or.inr (Or.inl ⟨[], t, ?_⟩)
        simp only [List.nil_append] at hpa ⊢
        rw [hy, ← hpa]
      · rcases eq_or_ne c [] with rfl | hc0
        · refine Or.inl (List.IsSuffix.isInfix ?_)
          rw [hpa, List.append_nil]
          exact ⟨s, hxa.symm⟩
        · refine Or.inr (Or.inr ⟨a.length, List.length_pos.mpr ha, ?_, ?_, ?_⟩)
          · rw [hpa, List.length_append]
            have := List.length_pos.mpr hc0
            omega
          · rw [hpa, List.take_left]
            exact ⟨s, hxa.symm⟩
          · rw [hpa, List.drop_left]
            exact ⟨t, hy.symm⟩
    · refine Or.inr (Or.inl ⟨d, t, ?_⟩)
      rw [hy, hc, List.append_assoc]

/-- Safety of a string with respect to a pattern: the pattern does not
occur in the string, and no nonempty proper prefix of the pattern is a
suffix of the string (so no occurrence can start inside it and continue
into later concatenands). -/
def Good (pat : List Char) (s : String) : Prop :=
  ¬ pat <:+: s.data ∧ ∀ k, k < pat.length → 0 < k → ¬ pat.take k <:+ s.data

instance {pat : List Char} {s : String} : Decidable (Good pat s) := by
  unfold Good; infer_instance

/-- `Good` is closed under string concatenation. -/
theorem Good.append {pat : List Char} {s t : String} (hs : Good pat s)
    (ht : Good pat t) : Good pat (s ++ t) := by
  constructor
  · intro h
    rw [String.data_append] at h
    rcases infix_split h with h | h | ⟨k, hk0, hkl, hkx, -⟩
    · exact hs.1 h
    · exact ht.1 h
    · exact hs.2 k hkl hk0 hkx
  · intro k hkl hk0 h
    rw [String.data_append] at h
    rcases suf_split h with h | ⟨z, hz, hzeq⟩
    · exact ht.2 k hkl hk0 h
    · rcases eq_or_ne z [] with rfl | hz0
      · rw [List.nil_append] at hzeq
        apply ht.2 k hkl hk0
        rw [hzeq]
      · have hzp : z <+: pat.take k := ⟨t.data, hzeq.symm⟩
        have hzt : z = pat.take z.length :=
          List.prefix_iff_eq_take.mp (hzp.trans (take_isPre pat k))
        have hlen : z.length < pat.length := by
          have h1 : z.length ≤ (pat.take k).length := hzp.length_le
          simp only [List.length_take] at h1
          omega
        apply hs.2 z.length hlen (List.length_pos.mpr hz0)
        rw [← hzt]
        exact hz

/-- `Good` passes through a conditional. -/
theorem Good.ite {pat : List Char} {c : Prop} [Decidable c] {s t : String}
    (hs : Good pat s) (ht : Good pat t) : Good pat (if c then s else t) := by
  split <;> assumption

/-- A string avoiding the head character of the pattern is `Good`. -/
theorem Good_of_head {c : Char} {pat' : List Char} {s : String}
    (h : c ∉ s.data) : Good (c :: pat') s := by
  constructor
  · intro hinf
    exact h (hinf.mem (List.mem_cons_self c pat'))
  · intro k _ hk0 hsuf
    apply h
    apply hsuf.mem
    cases k with
    | zero => omega
    | succ n =>
      rw [List.take_succ_cons]
      exact List.mem_cons_self _ _

/-- Characters that the five escape replacement strings are built from. -/
def entityChars : List Char :=
  ['&', 'a', 'm', 'p', ';', 'l', 't', 'g', 'q', 'u', 'o', '#', '0', '3', '9']

/-- Each character of `escChar c` is either `c` itself — and then none of
the five escaped characters — or a character of a replacement entity. -/
theorem escChar_mem {c x : Char} (hx : x ∈ (escChar c).data) :
    (x = c ∧ x ≠ '&' ∧ x ≠ '<' ∧ x ≠ '>' ∧ x ≠ '"' ∧ x ≠ '\x27') ∨ x ∈ entityChars := by
  unfold escChar at hx
  split at hx
  · exact Or.inr ((by decide : ∀ y ∈ ("&amp;" : String).data, y ∈ entityChars) x hx)
  · split at hx
    · exact Or.inr ((by decide : ∀ y ∈ ("&lt;" : String).data, y ∈ entityChars) x hx)
    · split at hx
      · exact Or.inr ((by decide : ∀ y ∈ ("&gt;" : String).data, y ∈ entityChars) x hx)
      · split at hx
        · exact Or.inr ((by decide : ∀ y ∈ ("&quot;" : String).data, y ∈ entityChars) x hx)
        · split at hx
          · exact Or.inr ((by decide : ∀ y ∈ ("&#039;" : String).data, y ∈ entityChars) x hx)
          · rename_i h1 h2 h3 h4 h5
            have hx' : x ∈ [c] := hx
            have hxc : x = c := List.mem_singleton.mp hx'
            subst hxc
            exact Or.inl ⟨rfl, h1, h2, h3, h4, h5⟩

/-- Membership in an escaped character list. -/
theorem escapeList_mem {x : Char} : ∀ {l : List Char}, x ∈ escapeList l →
    (x ∈ l ∧ x ≠ '&' ∧ x ≠ '<' ∧ x ≠ '>' ∧ x ≠ '"' ∧ x ≠ '\x27') ∨ x ∈ entityChars := by
  intro l
  induction l with
  | nil => intro h; cases h
  | cons c cs ih =>
    intro h
    rw [escapeList] at h
    rcases List.mem_append.mp h with h | h
    · rcases escChar_mem h with ⟨rfl, hne⟩ | h
      · exact Or.inl ⟨List.mem_cons_self _ _, hne⟩
      · exact Or.inr h
    · rcases ih h with ⟨hm, hne⟩ | h
      · exact Or.inl ⟨List.mem_cons_of_mem _ hm, hne⟩
      · exact Or.inr h

/-- The escaped form of any string contains no `<`. -/
theorem escapeHtml_no_lt {s : String} : '<' ∉ (escapeHtml s).data := by
  intro h
  rcases escapeList_mem h with ⟨-, -, h, -⟩ | h
  · exact h rfl
  · exact absurd h (by decide)

/-- A character outside the string and outside the entity characters does
not occur in the escaped string. -/
theorem not_mem_escapeHtml {c : Char} {s : String} (h1 : c ∉ s.data)
    (h2 : c ∉ entityChars) : c ∉ (escapeHtml s).data := by
  intro h
  rcases escapeList_mem h with ⟨hm, -⟩ | h
  · exact h1 hm
  · exact h2 h

/-- The characters that `Nat.digitChar` can produce (digits, lower-case
hex letters, and the overflow star). -/
def digitChars : List Char := "0123456789abcdef*".data

/-- `Nat.digitChar` only produces digit characters. -/
theorem digitChar_mem (n : Nat) : Nat.digitChar n ∈ digitChars := by
  unfold Nat.digitChar
  by_cases h : n < 16
  · interval_cases n <;> decide
  · repeat rw [if_neg (by omega)]
    decide

/-- All characters produced by `Nat.toDigitsCore` over digit-only
accumulators are digit characters. -/
theorem toDigitsCore_mem {b : Nat} {x : Char} : ∀ {fuel n : Nat} {ds : List Char},
    (∀ y ∈ ds, y ∈ digitChars) → x ∈ Nat.toDigitsCore b fuel n ds →
    x ∈ digitChars := by
  intro fuel
  induction fuel with
  | zero => intro n ds hds hx; exact hds x hx
  | succ f ih =>
    intro n ds hds hx
    rw [Nat.toDigitsCore] at hx
    split at hx
    · rcases List.mem_cons.mp hx with rfl | hx
      · exact digitChar_mem _
      · exact hds x hx
    · refine ih ?_ hx
      intro y hy
      rcases List.mem_cons.mp hy with rfl | hy
      · exact digitChar_mem _
      · exact hds y hy

/-- Every character of `Nat`'s string representation is a digit character. -/
theorem natRepr_mem {n : Nat} {x : Char} (hx : x ∈ (toString n).data) :
    x ∈ digitChars :=
  toDigitsCore_mem (by intro y hy; cases hy) hx

theorem hasPat_iff {pat l : List Char} : hasPat pat l = true ↔ pat <:+: l := by
  induction l with
  | nil =>
    rw [hasPat]
    simp [List.isEmpty_iff]
  | cons a xs ih =>
    rw [hasPat]
    rw [List.infix_cons_iff]
    simp only [Bool.or_eq_true, ih]
    rw [ List.isPrefixOf_iff_prefix]

/-- Executable form of `Good`. -/
def goodCheck (pat : List Char) (s : String) : Bool :=
  !hasPat pat s.data &&
    (List.range pat.length).all fun k => k = 0 || !(pat.take k).isSuffixOf s.data

theorem goodCheck_sound {pat : List Char} {s : String}
    (h : goodCheck pat s = true) : Good pat s := by
  unfold goodCheck at h
  rw [Bool.and_eq_true] at h
  obtain ⟨h1, h2⟩ := h
  constructor
  · intro hinf
    rw [Bool.not_eq_true'] at h1
    rw [← hasPat_iff] at hinf
    rw [h1] at hinf
    cases hinf
  · intro k hkl hk0 hsuf
    rw [List.all_eq_true] at h2
    have := h2 k (List.mem_range.mpr hkl)
    rw [Bool.or_eq_true, Bool.not_eq_true'] at this
    rcases this with hk | hfalse
    · have : k = 0 := by simpa using hk
      omega
    · rw [← List.isSuffixOf_iff_suffix] at hsuf
      rw [hfalse] at hsuf
      cases hsuf

/-- String-level infix relation. -/
def strOccurs (a b : String) : Prop := a.data <:+: b.data

/-- Occurrence in the left part of a concatenation. -/
theorem strOccurs_appL {a x y : String} (h : strOccurs a x) : strOccurs a (x ++ y) := by
  obtain ⟨s, t, hst⟩ := h
  exact ⟨s, t ++ y.data, by rw [String.data_append, ← hst]; simp [List.append_assoc]⟩

/-- Occurrence in the right part of a concatenation. -/
theorem strOccurs_appR {a x y : String} (h : strOccurs a y) : strOccurs a (x ++ y) := by
  obtain ⟨s, t, hst⟩ := h
  exact ⟨x.data ++ s, t, by rw [String.data_append, ← hst]; simp [List.append_assoc]⟩

/-- A string occurs in itself. -/
theorem strOccurs_refl (a : String) : strOccurs a a :=
  ⟨[], [], by simp⟩

/-! ### `<script>` can never occur in rendered HTML -/

/-- The character list of the probe string `"<script>"`. -/
def scriptPat : List Char := "<script>".data

theorem good_script_esc (s : String) : Good scriptPat (escapeHtml s) :=
  Good_of_head escapeHtml_no_lt

theorem good_script_year (n : Nat) : Good scriptPat (toString n) :=
  Good_of_head (fun h => absurd (natRepr_mem h) (by decide))

theorem good_script_style_bannerText (et : String) :
    Good scriptPat (hostStyle et).bannerText := by
  unfold hostStyle
  repeat' split
  all_goals exact goodCheck_sound (by rfl)

theorem good_script_style_bannerColor (et : String) :
    Good scriptPat (hostStyle et).bannerColor := by
  unfold hostStyle
  repeat' split
  all_goals exact goodCheck_sound (by rfl)

theorem good_script_style_iconEmoji (et : String) :
    Good scriptPat (hostStyle et).iconEmoji := by
  unfold hostStyle
  repeat' split
  all_goals exact goodCheck_sound (by rfl)

theorem good_script_style_iconBgColor (et : String) :
    Good scriptPat (hostStyle et).iconBgColor := by
  unfold hostStyle
  repeat' split
  all_goals exact goodCheck_sound (by rfl)

theorem good_script_style_iconShadow (et : String) :
    Good scriptPat (hostStyle et).iconShadow := by
  unfold hostStyle
  repeat' split
  all_goals exact goodCheck_sound (by rfl)

theorem goodLit0 : Good scriptPat "<!doctype html>\n<html>\n\t<head>\n\t\t<meta charset=\"utf-8\"/>\n\t\t<meta name=\"viewport\" content=\"width=device-width, initial-scale=1.0\"/>\n\t\t<link href=\"https://fonts.googleapis.com/css2?family=Sono:wght@400;500;600;700&display=swap\" rel=\"stylesheet\">\n\t\t<style>\n\t\t\tbody \x7b\n\t\t\t\tmargin: 0;\n\t\t\t\tpadding: 0;\n\t\t\t\tbackground-color: #e8f4f8;\n\t\t\t\tfont-family: \x27Sono\x27, Arial, sans-serif;\n\t\t\t\x7d\n\t\t</style>\n\t</head>\n\t<body style=\"margin: 0; padding: 0; background-color: #e8f4f8; font-family: \x27Sono\x27, Arial, sans-serif;\">\n\t\t<table role=\"presentation\" width=\"100%\" cellspacing=\"0\" cellpadding=\"0\" border=\"0\" style=\"background-color: #e8f4f8; padding: 40px 20px;\">\n\t\t\t<tr>\n\t\t\t\t<td align=\"center\">\n\t\t\t\t\t<!\x2d\x2d Main container with dark blue border \x2d\x2d>\n\t\t\t\t\t<table role=\"presentation\" width=\"600\" cellspacing=\"0\" cellpadding=\"0\" border=\"0\" style=\"max-width: 600px; border-radius: 20px; overflow: hidden; border: 4px solid #0437F2; box-shadow: 0 8px 32px rgba(4, 55, 242, 0.15);\">\n\t\t\t\t\t\t\n\t\t\t\t\t\t<!\x2d\x2d Header with light blue to green gradient and icons \x2d\x2d>\n\t\t\t\t\t\t<tr>\n\t\t\t\t\t\t\t<td align=\"center\" style=\"background: linear-gradient(135deg, #d4ebf7 0%, #c8e6d5 100%); padding: 40px 30px 30px 30px;\">\n\t\t\t\t\t\t\t\t<!\x2d\x2d Success Checkmark Circle \x2d\x2d>\n\t\t\t\t\t\t\t\t<table role=\"presentation\" cellspacing=\"0\" cellpadding=\"0\" border=\"0\" style=\"margin: 0 auto 20px;\">\n\t\t\t\t\t\t\t\t\t<tr>\n\t\t\t\t\t\t\t\t\t\t<td align=\"center\" style=\"background: linear-gradient(135deg, #10b981 0%, #059669 100%); width: 100px; height: 100px; border-radius: 50%; box-shadow: 0 6px 20px rgba(16, 185, 129, 0.4);\">\n\t\t\t\t\t\t\t\t\t\t\t<img src=\"cid:checkmark-icon\" alt=\"Success\" style=\"width: 60px; height: 60px; margin-top: 20px;\"/>\n\t\t\t\t\t\t\t\t\t\t</td>\n\t\t\t\t\t\t\t\t\t</tr>\n\t\t\t\t\t\t\t\t</table>\n\t\t\t\t\t\t\t\t\n\t\t\t\t\t\t\t\t<!\x2d\x2d MyStay Branding \x2d\x2d>\n\t\t\t\t\t\t\t\t<table role=\"presentation\" cellspacing=\"0\" cellpadding=\"0\" border=\"0\" style=\"margin: 0 auto;\">\n\t\t\t\t\t\t\t\t\t<tr>\n\t\t\t\t\t\t\t\t\t\t<td align=\"center\">\n\t\t\t\t\t\t\t\t\t\t\t<img src=\"cid:mystay-icon\" alt=\"MyStay App Icon\" style=\"width: 48px; height: 48px; border-radius: 10px; vertical-align: middle; margin-right: 12px; box-shadow: 0 2px 8px rgba(0, 0, 0, 0.1);\"/>\n\t\t\t\t\t\t\t\t\t\t\t<span style=\"font-size: 26px; font-weight: 700; color: #0437F2; font-family: \x27Sono\x27, Arial, sans-serif; vertical-align: middle;\">MyStay App</span>\n\t\t\t\t\t\t\t\t\t\t</td>\n\t\t\t\t\t\t\t\t\t</tr>\n\t\t\t\t\t\t\t\t</table>\n\t\t\t\t\t\t\t</td>\n\t\t\t\t\t\t</tr>\n\t\t\t\t\t\t\n\t\t\t\t\t\t<!\x2d\x2d Success Message Banner \x2d\x2d>\n\t\t\t\t\t\t<tr>\n\t\t\t\t\t\t\t<td align=\"center\" style=\"background: linear-gradient(90deg, #10b981 0%, #059669 100%); padding: 16px 30px;\">\n\t\t\t\t\t\t\t\t<h2 style=\"margin: 0; font-size: 20px; font-weight: 700; color: #ffffff; font-family: \x27Sono\x27, Arial, sans-serif; text-transform: uppercase; letter-spacing: 0.5px;\">" :=
  goodCheck_sound (by rfl)

theorem goodLit1 : Good scriptPat "</h2>\n\t\t\t\t\t\t\t</td>\n\t\t\t\t\t\t</tr>\n\t\t\t\t\t\t\n\t\t\t\t\t\t<!\x2d\x2d Main content with light blue-green gradient \x2d\x2d>\n\t\t\t\t\t\t<tr>\n\t\t\t\t\t\t\t<td style=\"background: linear-gradient(180deg, #e0f2fe 0%, #d1fae5 100%); padding: 40px 30px;\">\n\t\t\t\t\t\t\t\t<h3 style=\"margin: 0 0 20px 0; font-size: 20px; font-weight: 600; color: #0437F2; font-family: \x27Sono\x27, Arial, sans-serif; text-align: center;\">" :=
  goodCheck_sound (by rfl)

theorem goodLit2 : Good scriptPat "</h3>\n\t\t\t\t\t\t\t\t\n\t\t\t\t\t\t\t\t<p style=\"margin: 0 0 16px 0; font-size: 15px; color: #1e40af; line-height: 1.6; font-family: \x27Sono\x27, Arial, sans-serif;\">\n\t\t\t\t\t\t\t\t\tHi <strong>" :=
  goodCheck_sound (by rfl)

theorem goodLit3 : Good scriptPat "" :=
  goodCheck_sound (by rfl)

theorem goodLit4 : Good scriptPat "there" :=
  goodCheck_sound (by rfl)

theorem goodLit5 : Good scriptPat "</strong>,\n\t\t\t\t\t\t\t\t</p>\n\t\t\t\t\t\t\t\t<p style=\"margin: 0 0 32px 0; font-size: 14px; color: #166534; line-height: 1.7; font-family: \x27Sono\x27, Arial, sans-serif;\">\n\t\t\t\t\t\t\t\t\tThank you for using MyStay App. Your transaction has been processed successfully. Below are the details:\n\t\t\t\t\t\t\t\t</p>\n\t\t\t\t\t\t\t\t\n\t\t\t\t\t\t\t\t<!\x2d\x2d Transaction details card with white background \x2d\x2d>\n\t\t\t\t\t\t\t\t<table role=\"presentation\" width=\"100%\" cellspacing=\"0\" cellpadding=\"0\" border=\"0\" style=\"background-color: #ffffff; border-radius: 12px; overflow: hidden; border: 2px solid #0437F2; box-shadow: 0 4px 12px rgba(4, 55, 242, 0.1);\">\n\t\t\t\t\t\t\t\t\t<tr>\n\t\t\t\t\t\t\t\t\t\t<td style=\"padding: 0;\">\n\t\t\t\t\t\t\t\t\t\t\t<!\x2d\x2d Details header \x2d\x2d>\n\t\t\t\t\t\t\t\t\t\t\t<table role=\"presentation\" width=\"100%\" cellspacing=\"0\" cellpadding=\"0\" border=\"0\">\n\t\t\t\t\t\t\t\t\t\t\t\t<tr>\n\t\t\t\t\t\t\t\t\t\t\t\t\t<td style=\"background: linear-gradient(90deg, #0437F2 0%, #0284c7 100%); padding: 14px 24px;\">\n\t\t\t\t\t\t\t\t\t\t\t\t\t\t<span style=\"font-size: 14px; font-weight: 700; color: #ffffff; font-family: \x27Sono\x27, Arial, sans-serif; text-transform: uppercase; letter-spacing: 0.5px;\">" :=
  goodCheck_sound (by rfl)

theorem goodLit6 : Good scriptPat "</span>\n\t\t\t\t\t\t\t\t\t\t\t\t\t</td>\n\t\t\t\t\t\t\t\t\t\t\t\t</tr>\n\t\t\t\t\t\t\t\t\t\t\t</table>\n\t\t\t\t\t\t\t\t\t\t\t\n\t\t\t\t\t\t\t\t\t\t\t<!\x2d\x2d Details content \x2d\x2d>\n\t\t\t\t\t\t\t\t\t\t\t<table role=\"presentation\" width=\"100%\" cellspacing=\"0\" cellpadding=\"0\" border=\"0\">\n\t\t\t\t\t\t\t\t\t\t\t\t<tr>\n\t\t\t\t\t\t\t\t\t\t\t\t\t<td style=\"padding: 16px 24px; border-bottom: 1px solid #e0f2fe;\">\n\t\t\t\t\t\t\t\t\t\t\t\t\t\t<span style=\"display: block; font-size: 13px; font-weight: 600; color: #1e40af; font-family: \x27Sono\x27, Arial, sans-serif; margin-bottom: 4px;\">" :=
  goodCheck_sound (by rfl)

theorem goodLit7 : Good scriptPat "</span>\n\t\t\t\t\t\t\t\t\t\t\t\t\t\t<span style=\"display: block; font-size: 22px; font-weight: 700; color: #10b981; font-family: \x27Sono\x27, Arial, sans-serif;\">" :=
  goodCheck_sound (by rfl)

theorem goodLit8 : Good scriptPat "</span>\n\t\t\t\t\t\t\t\t\t\t\t\t\t</td>\n\t\t\t\t\t\t\t\t\t\t\t\t</tr>\n\t\t\t\t\t\t\t\t\t\t\t\t" :=
  goodCheck_sound (by rfl)

theorem goodLit9 : Good scriptPat "\n\t\t\t\t\t\t\t\t\t\t\t\t<tr>\n\t\t\t\t\t\t\t\t\t\t\t\t\t<td style=\"padding: 16px 24px; " :=
  goodCheck_sound (by rfl)

theorem goodLit10 : Good scriptPat "border-bottom: 1px solid #e0f2fe;" :=
  goodCheck_sound (by rfl)

theorem goodLit11 : Good scriptPat "\">\n\t\t\t\t\t\t\t\t\t\t\t\t\t\t<span style=\"display: block; font-size: 13px; font-weight: 600; color: #1e40af; font-family: \x27Sono\x27, Arial, sans-serif; margin-bottom: 4px;\">📱 M-Pesa Receipt</span>\n\t\t\t\t\t\t\t\t\t\t\t\t\t\t<span style=\"display: block; font-size: 15px; font-weight: 600; color: #0437F2; font-family: \x27Sono\x27, Arial, sans-serif;\">" :=
  goodCheck_sound (by rfl)

theorem goodLit12 : Good scriptPat "\n\t\t\t\t\t\t\t\t\t\t\t\t" :=
  goodCheck_sound (by rfl)

theorem goodLit13 : Good scriptPat "\n\t\t\t\t\t\t\t\t\t\t\t\t<tr>\n\t\t\t\t\t\t\t\t\t\t\t\t\t<td style=\"padding: 16px 24px;\">\n\t\t\t\t\t\t\t\t\t\t\t\t\t\t<span style=\"display: block; font-size: 13px; font-weight: 600; color: #1e40af; font-family: \x27Sono\x27, Arial, sans-serif; margin-bottom: 4px;\">🏠 Booking Reference</span>\n\t\t\t\t\t\t\t\t\t\t\t\t\t\t<span style=\"display: block; font-size: 15px; font-weight: 600; color: #0437F2; font-family: \x27Sono\x27, Arial, sans-serif;\">" :=
  goodCheck_sound (by rfl)

theorem goodLit14 : Good scriptPat "\n\t\t\t\t\t\t\t\t\t\t\t</table>\n\t\t\t\t\t\t\t\t\t\t</td>\n\t\t\t\t\t\t\t\t\t</tr>\n\t\t\t\t\t\t\t\t</table>\n\t\t\t\t\t\t\t\t\n\t\t\t\t\t\t\t\t" :=
  goodCheck_sound (by rfl)

theorem goodLit15 : Good scriptPat "\n\t\t\t\t\t\t\t\t<table role=\"presentation\" width=\"100%\" cellspacing=\"0\" cellpadding=\"0\" border=\"0\" style=\"margin-top: 24px; background: linear-gradient(135deg, #dbeafe 0%, #fef3c7 100%); border-radius: 10px; border: 2px solid #0437F2; border-left: 6px solid #10b981;\">\n\t\t\t\t\t\t\t\t\t<tr>\n\t\t\t\t\t\t\t\t\t\t<td style=\"padding: 18px 24px;\">\n\t\t\t\t\t\t\t\t\t\t\t<p style=\"margin: 0; font-size: 13px; color: #1e3a8a; line-height: 1.6; font-family: \x27Sono\x27, Arial, sans-serif;\">\n\t\t\t\t\t\t\t\t\t\t\t\t<strong style=\"color: #0437F2; font-size: 14px;\">📌 Important Note:</strong><br/>\n\t\t\t\t\t\t\t\t\t\t\t\t<span style=\"margin-top: 6px; display: inline-block; font-size: 13px;\">" :=
  goodCheck_sound (by rfl)

theorem goodLit16 : Good scriptPat "</span>\n\t\t\t\t\t\t\t\t\t\t\t</p>\n\t\t\t\t\t\t\t\t\t\t</td>\n\t\t\t\t\t\t\t\t\t</tr>\n\t\t\t\t\t\t\t\t</table>\n\t\t\t\t\t\t\t\t" :=
  goodCheck_sound (by rfl)

theorem goodLit17 : Good scriptPat "\n\t\t\t\t\t\t\t\t\n\t\t\t\t\t\t\t\t<!\x2d\x2d Call to action \x2d\x2d>\n\t\t\t\t\t\t\t\t<table role=\"presentation\" width=\"100%\" cellspacing=\"0\" cellpadding=\"0\" border=\"0\" style=\"margin-top: 32px;\">\n\t\t\t\t\t\t\t\t\t<tr>\n\t\t\t\t\t\t\t\t\t\t<td align=\"center\" style=\"padding: 18px 24px; background: linear-gradient(135deg, #0437F2 0%, #0284c7 100%); border-radius: 10px; box-shadow: 0 4px 12px rgba(4, 55, 242, 0.3);\">\n\t\t\t\t\t\t\t\t\t\t\t<p style=\"margin: 0; font-size: 13px; color: #ffffff; line-height: 1.6; font-family: \x27Sono\x27, Arial, sans-serif; font-weight: 500;\">\n\t\t\t\t\t\t\t\t\t\t\t\t" :=
  goodCheck_sound (by rfl)

theorem goodLit18 : Good scriptPat "💙 Thank you for your understanding. We look forward to serving you again!" :=
  goodCheck_sound (by rfl)

theorem goodLit19 : Good scriptPat "🎉 You\x27re all set! Happy hosting." :=
  goodCheck_sound (by rfl)

theorem goodLit20 : Good scriptPat "\n\t\t\t\t\t\t\t\t\t\t\t</p>\n\t\t\t\t\t\t\t\t\t\t</td>\n\t\t\t\t\t\t\t\t\t</tr>\n\t\t\t\t\t\t\t\t</table>\n\t\t\t\t\t\t\t</td>\n\t\t\t\t\t\t</tr>\n\t\t\t\t\t\t\n\t\t\t\t\t\t<!\x2d\x2d Footer \x2d\x2d>\n\t\t\t\t\t\t<tr>\n\t\t\t\t\t\t\t<td style=\"background-color: #f0f9ff; padding: 28px 30px; text-align: center; border-top: 2px solid #bfdbfe;\">\n\t\t\t\t\t\t\t\t<p style=\"margin: 0 0 8px 0; font-size: 12px; color: #1e40af; line-height: 1.6; font-family: \x27Sono\x27, Arial, sans-serif; font-weight: 500;\">\n\t\t\t\t\t\t\t\t\tThis is an automated confirmation from MyStay App.<br/>\n\t\t\t\t\t\t\t\t\tNeed help? Contact our support team anytime.\n\t\t\t\t\t\t\t\t</p>\n\t\t\t\t\t\t\t\t<p style=\"margin: 8px 0 0 0; font-size: 11px; color: #0437F2; font-family: \x27Sono\x27, Arial, sans-serif; font-weight: 600;\">\n\t\t\t\t\t\t\t\t\t© " :=
  goodCheck_sound (by rfl)

theorem goodLit21 : Good scriptPat " MyStay. All rights reserved.\n\t\t\t\t\t\t\t\t</p>\n\t\t\t\t\t\t\t</td>\n\t\t\t\t\t\t</tr>\n\t\t\t\t\t</table>\n\t\t\t\t</td>\n\t\t\t</tr>\n\t\t</table>\n\t</body>\n</html>" :=
  goodCheck_sound (by rfl)

theorem goodLit22 : Good scriptPat "<!doctype html>\n<html>\n\t<head>\n\t\t<meta charset=\"utf-8\"/>\n\t\t<meta name=\"viewport\" content=\"width=device-width, initial-scale=1.0\"/>\n\t\t<link href=\"https://fonts.googleapis.com/css2?family=Sono:wght@400;500;600;700&display=swap\" rel=\"stylesheet\">\n\t\t<style>\n\t\t\tbody \x7b\n\t\t\t\tmargin: 0;\n\t\t\t\tpadding: 0;\n\t\t\t\tbackground-color: #e8f4f8;\n\t\t\t\tfont-family: \x27Sono\x27, Arial, sans-serif;\n\t\t\t\x7d\n\t\t</style>\n\t</head>\n\t<body style=\"margin: 0; padding: 0; background-color: #e8f4f8; font-family: \x27Sono\x27, Arial, sans-serif;\">\n\t\t<table role=\"presentation\" width=\"100%\" cellspacing=\"0\" cellpadding=\"0\" border=\"0\" style=\"background-color: #e8f4f8; padding: 40px 20px;\">\n\t\t\t<tr>\n\t\t\t\t<td align=\"center\">\n\t\t\t\t\t<!\x2d\x2d Main container with dark blue border \x2d\x2d>\n\t\t\t\t\t<table role=\"presentation\" width=\"600\" cellspacing=\"0\" cellpadding=\"0\" border=\"0\" style=\"max-width: 600px; border-radius: 20px; overflow: hidden; border: 4px solid #0437F2; box-shadow: 0 8px 32px rgba(4, 55, 242, 0.15);\">\n\t\t\t\t\t\t\n\t\t\t\t\t\t<!\x2d\x2d Header with light blue to green gradient and icons \x2d\x2d>\n\t\t\t\t\t\t<tr>\n\t\t\t\t\t\t\t<td align=\"center\" style=\"background: linear-gradient(135deg, #d4ebf7 0%, #c8e6d5 100%); padding: 40px 30px 30px 30px;\">\n\t\t\t\t\t\t\t\t<!\x2d\x2d Status Icon Circle \x2d\x2d>\n\t\t\t\t\t\t\t\t<table role=\"presentation\" cellspacing=\"0\" cellpadding=\"0\" border=\"0\" style=\"margin: 0 auto 20px;\">\n\t\t\t\t\t\t\t\t\t<tr>\n\t\t\t\t\t\t\t\t\t\t<td align=\"center\" style=\"background: " :=
  goodCheck_sound (by rfl)

theorem goodLit23 : Good scriptPat "; width: 100px; height: 100px; border-radius: 50%; box-shadow: 0 6px 20px " :=
  goodCheck_sound (by rfl)

theorem goodLit24 : Good scriptPat ";\">\n\t\t\t\t\t\t\t\t\t\t\t" :=
  goodCheck_sound (by rfl)

theorem goodLit25 : Good scriptPat "rejected" :=
  goodCheck_sound (by rfl)

theorem goodLit26 : Good scriptPat "verification_rejected" :=
  goodCheck_sound (by rfl)

theorem goodLit27 : Good scriptPat "\n\t\t\t\t\t\t\t\t\t\t\t<span style=\"display: inline-block; font-size: 50px; margin-top: 25px;\">❌</span>\n\t\t\t\t\t\t\t\t\t\t\t" :=
  goodCheck_sound (by rfl)

theorem goodLit28 : Good scriptPat "verified" :=
  goodCheck_sound (by rfl)

theorem goodLit29 : Good scriptPat "\n\t\t\t\t\t\t\t\t\t\t\t<span style=\"display: inline-block; font-size: 50px; margin-top: 25px;\">✅</span>\n\t\t\t\t\t\t\t\t\t\t\t" :=
  goodCheck_sound (by rfl)

theorem goodLit30 : Good scriptPat "\n\t\t\t\t\t\t\t\t\t\t\t<img src=\"cid:checkmark-icon\" alt=\"Success\" style=\"width: 60px; height: 60px; margin-top: 20px;\"/>\n\t\t\t\t\t\t\t\t\t\t\t" :=
  goodCheck_sound (by rfl)

theorem goodLit31 : Good scriptPat "\n\t\t\t\t\t\t\t\t\t\t</td>\n\t\t\t\t\t\t\t\t\t</tr>\n\t\t\t\t\t\t\t\t</table>\n\t\t\t\t\t\t\t\t\n\t\t\t\t\t\t\t\t<!\x2d\x2d MyStay Branding \x2d\x2d>\n\t\t\t\t\t\t\t\t<table role=\"presentation\" cellspacing=\"0\" cellpadding=\"0\" border=\"0\" style=\"margin: 0 auto;\">\n\t\t\t\t\t\t\t\t\t<tr>\n\t\t\t\t\t\t\t\t\t\t<td align=\"center\">\n\t\t\t\t\t\t\t\t\t\t\t<img src=\"cid:mystay-icon\" alt=\"MyStay App Icon\" style=\"width: 48px; height: 48px; border-radius: 10px; vertical-align: middle; margin-right: 12px; box-shadow: 0 2px 8px rgba(0, 0, 0, 0.1);\"/>\n\t\t\t\t\t\t\t\t\t\t\t<span style=\"font-size: 26px; font-weight: 700; color: #0437F2; font-family: \x27Sono\x27, Arial, sans-serif; vertical-align: middle;\">MyStay App</span>\n\t\t\t\t\t\t\t\t\t\t</td>\n\t\t\t\t\t\t\t\t\t</tr>\n\t\t\t\t\t\t\t\t</table>\n\t\t\t\t\t\t\t</td>\n\t\t\t\t\t\t</tr>\n\t\t\t\t\t\t\n\t\t\t\t\t\t<!\x2d\x2d Status Message Banner \x2d\x2d>\n\t\t\t\t\t\t<tr>\n\t\t\t\t\t\t\t<td align=\"center\" style=\"background: " :=
  goodCheck_sound (by rfl)

theorem goodLit32 : Good scriptPat "; padding: 16px 30px;\">\n\t\t\t\t\t\t\t\t<h2 style=\"margin: 0; font-size: 20px; font-weight: 700; color: #ffffff; font-family: \x27Sono\x27, Arial, sans-serif; text-transform: uppercase; letter-spacing: 0.5px;\">" :=
  goodCheck_sound (by rfl)

theorem goodLit33 : Good scriptPat "</h2>\n\t\t\t\t\t\t\t</td>\n\t\t\t\t\t\t</tr>\n\t\t\t\t\t\t\n\t\t\t\t\t\t<!\x2d\x2d Main content with light blue-green gradient \x2d\x2d>\n\t\t\t\t\t\t<tr>\n\t\t\t\t\t\t\t<td style=\"background: linear-gradient(180deg, #e0f2fe 0%, #d1fae5 100%); padding: 40px 30px;\">\n\t\t\t\t\t\t\t\t<p style=\"margin: 0 0 20px 0; font-size: 15px; color: #1e40af; line-height: 1.6; font-family: \x27Sono\x27, Arial, sans-serif;\">\n\t\t\t\t\t\t\t\t\tHi <strong>" :=
  goodCheck_sound (by rfl)

theorem goodLit34 : Good scriptPat "</strong>,\n\t\t\t\t\t\t\t\t</p>\n\t\t\t\t\t\t\t\t\n\t\t\t\t\t\t\t\t" :=
  goodCheck_sound (by rfl)

theorem goodLit35 : Good scriptPat "\n\t\t\t\t\t\t\t\t<p style=\"margin: 0 0 32px 0; font-size: 14px; color: #166534; line-height: 1.7; font-family: \x27Sono\x27, Arial, sans-serif;\">\n\t\t\t\t\t\t\t\t\tCongratulations! Your host account has been <strong style=\"color: #0437F2;\">successfully verified</strong>. You can now start creating and managing your listings on MyStay App.\n\t\t\t\t\t\t\t\t</p>\n\t\t\t\t\t\t\t\t<p style=\"margin: 0 0 32px 0; font-size: 14px; color: #166534; line-height: 1.7; font-family: \x27Sono\x27, Arial, sans-serif;\">\n\t\t\t\t\t\t\t\t\tWelcome to the MyStay community! We\x27re excited to have you as part of our platform.\n\t\t\t\t\t\t\t\t</p>\n\t\t\t\t\t\t\t\t" :=
  goodCheck_sound (by rfl)

theorem goodLit36 : Good scriptPat "\n\t\t\t\t\t\t\t\t<p style=\"margin: 0 0 24px 0; font-size: 14px; color: #991b1b; line-height: 1.7; font-family: \x27Sono\x27, Arial, sans-serif;\">\n\t\t\t\t\t\t\t\t\tWe\x27re sorry to inform you that your <strong style=\"color: #0437F2;\">host verification request</strong> was not approved after review.\n\t\t\t\t\t\t\t\t</p>\n\t\t\t\t\t\t\t\t" :=
  goodCheck_sound (by rfl)

theorem goodLit37 : Good scriptPat "published" :=
  goodCheck_sound (by rfl)

theorem goodLit38 : Good scriptPat "\n\t\t\t\t\t\t\t\t<p style=\"margin: 0 0 32px 0; font-size: 14px; color: #166534; line-height: 1.7; font-family: \x27Sono\x27, Arial, sans-serif;\">\n\t\t\t\t\t\t\t\t\tWe are pleased to inform you that your submission <strong style=\"color: #0437F2;\">\x27" :=
  goodCheck_sound (by rfl)

theorem goodLit39 : Good scriptPat "\x27</strong> was just published on our app. Thank you.\n\t\t\t\t\t\t\t\t</p>\n\t\t\t\t\t\t\t\t" :=
  goodCheck_sound (by rfl)

theorem goodLit40 : Good scriptPat "\n\t\t\t\t\t\t\t\t<p style=\"margin: 0 0 24px 0; font-size: 14px; color: #991b1b; line-height: 1.7; font-family: \x27Sono\x27, Arial, sans-serif;\">\n\t\t\t\t\t\t\t\t\tWe\x27re sorry to inform you that your listing <strong style=\"color: #0437F2;\">\x27" :=
  goodCheck_sound (by rfl)

theorem goodLit41 : Good scriptPat "\x27</strong> was not approved after review.\n\t\t\t\t\t\t\t\t</p>\n\t\t\t\t\t\t\t\t" :=
  goodCheck_sound (by rfl)

theorem goodLit42 : Good scriptPat "\n\t\t\t\t\t\t\t\t<p style=\"margin: 0 0 32px 0; font-size: 14px; color: #166534; line-height: 1.7; font-family: \x27Sono\x27, Arial, sans-serif;\">\n\t\t\t\t\t\t\t\t\tThank you for submitting your listing <strong style=\"color: #0437F2;\">\x27" :=
  goodCheck_sound (by rfl)

theorem goodLit43 : Good scriptPat "\x27</strong>.\n\t\t\t\t\t\t\t\t</p>\n\t\t\t\t\t\t\t\t" :=
  goodCheck_sound (by rfl)

theorem goodLit44 : Good scriptPat "\n\t\t\t\t\t\t\t\t\n\t\t\t\t\t\t\t\t" :=
  goodCheck_sound (by rfl)

theorem goodLit45 : Good scriptPat "\n\t\t\t\t\t\t\t\t<!\x2d\x2d Verification details card \x2d\x2d>\n\t\t\t\t\t\t\t\t<table role=\"presentation\" width=\"100%\" cellspacing=\"0\" cellpadding=\"0\" border=\"0\" style=\"background-color: #ffffff; border-radius: 12px; overflow: hidden; border: 2px solid #0437F2; box-shadow: 0 4px 12px rgba(4, 55, 242, 0.1);\">\n\t\t\t\t\t\t\t\t\t<tr>\n\t\t\t\t\t\t\t\t\t\t<td style=\"padding: 0;\">\n\t\t\t\t\t\t\t\t\t\t\t<!\x2d\x2d Details header \x2d\x2d>\n\t\t\t\t\t\t\t\t\t\t\t<table role=\"presentation\" width=\"100%\" cellspacing=\"0\" cellpadding=\"0\" border=\"0\">\n\t\t\t\t\t\t\t\t\t\t\t\t<tr>\n\t\t\t\t\t\t\t\t\t\t\t\t\t<td style=\"background: linear-gradient(90deg, #0437F2 0%, #0284c7 100%); padding: 14px 24px;\">\n\t\t\t\t\t\t\t\t\t\t\t\t\t\t<span style=\"font-size: 14px; font-weight: 700; color: #ffffff; font-family: \x27Sono\x27, Arial, sans-serif; text-transform: uppercase; letter-spacing: 0.5px;\">" :=
  goodCheck_sound (by rfl)

theorem goodLit46 : Good scriptPat "Verification Status" :=
  goodCheck_sound (by rfl)

theorem goodLit47 : Good scriptPat "Verification Information" :=
  goodCheck_sound (by rfl)

theorem goodLit48 : Good scriptPat "</span>\n\t\t\t\t\t\t\t\t\t\t\t\t\t</td>\n\t\t\t\t\t\t\t\t\t\t\t\t</tr>\n\t\t\t\t\t\t\t\t\t\t\t</table>\n\t\t\t\t\t\t\t\t\t\t\t\n\t\t\t\t\t\t\t\t\t\t\t<!\x2d\x2d Details content \x2d\x2d>\n\t\t\t\t\t\t\t\t\t\t\t<table role=\"presentation\" width=\"100%\" cellspacing=\"0\" cellpadding=\"0\" border=\"0\">\n\t\t\t\t\t\t\t\t\t\t\t\t" :=
  goodCheck_sound (by rfl)

theorem goodLit49 : Good scriptPat "\n\t\t\t\t\t\t\t\t\t\t\t\t<tr>\n\t\t\t\t\t\t\t\t\t\t\t\t\t<td style=\"padding: 20px 24px;\">\n\t\t\t\t\t\t\t\t\t\t\t\t\t\t<span style=\"display: block; font-size: 13px; font-weight: 600; color: #1e40af; font-family: \x27Sono\x27, Arial, sans-serif; margin-bottom: 8px;\">✅ Account Status</span>\n\t\t\t\t\t\t\t\t\t\t\t\t\t\t<span style=\"display: block; font-size: 18px; font-weight: 700; color: #10b981; font-family: \x27Sono\x27, Arial, sans-serif;\">Verified</span>\n\t\t\t\t\t\t\t\t\t\t\t\t\t</td>\n\t\t\t\t\t\t\t\t\t\t\t\t</tr>\n\t\t\t\t\t\t\t\t\t\t\t\t" :=
  goodCheck_sound (by rfl)

theorem goodLit50 : Good scriptPat "\n\t\t\t\t\t\t\t\t\t\t\t\t<tr>\n\t\t\t\t\t\t\t\t\t\t\t\t\t<td style=\"padding: 20px 24px;\">\n\t\t\t\t\t\t\t\t\t\t\t\t\t\t<span style=\"display: block; font-size: 13px; font-weight: 600; color: #991b1b; font-family: \x27Sono\x27, Arial, sans-serif; margin-bottom: 8px;\">📋 Rejection Reason</span>\n\t\t\t\t\t\t\t\t\t\t\t\t\t\t<span style=\"display: block; font-size: 14px; color: #7f1d1d; line-height: 1.6; font-family: \x27Sono\x27, Arial, sans-serif;\">" :=
  goodCheck_sound (by rfl)

theorem goodLit51 : Good scriptPat "\n\t\t\t\t\t\t\t\t\t\t\t</table>\n\t\t\t\t\t\t\t\t\t\t</td>\n\t\t\t\t\t\t\t\t\t</tr>\n\t\t\t\t\t\t\t\t</table>\n\t\t\t\t\t\t\t\t" :=
  goodCheck_sound (by rfl)

theorem goodLit52 : Good scriptPat "\n\t\t\t\t\t\t\t\t<!\x2d\x2d Listing details card \x2d\x2d>\n\t\t\t\t\t\t\t\t<table role=\"presentation\" width=\"100%\" cellspacing=\"0\" cellpadding=\"0\" border=\"0\" style=\"background-color: #ffffff; border-radius: 12px; overflow: hidden; border: 2px solid #0437F2; box-shadow: 0 4px 12px rgba(4, 55, 242, 0.1);\">\n\t\t\t\t\t\t\t\t\t<tr>\n\t\t\t\t\t\t\t\t\t\t<td style=\"padding: 0;\">\n\t\t\t\t\t\t\t\t\t\t\t<!\x2d\x2d Details header \x2d\x2d>\n\t\t\t\t\t\t\t\t\t\t\t<table role=\"presentation\" width=\"100%\" cellspacing=\"0\" cellpadding=\"0\" border=\"0\">\n\t\t\t\t\t\t\t\t\t\t\t\t<tr>\n\t\t\t\t\t\t\t\t\t\t\t\t\t<td style=\"background: linear-gradient(90deg, #0437F2 0%, #0284c7 100%); padding: 14px 24px;\">\n\t\t\t\t\t\t\t\t\t\t\t\t\t\t<span style=\"font-size: 14px; font-weight: 700; color: #ffffff; font-family: \x27Sono\x27, Arial, sans-serif; text-transform: uppercase; letter-spacing: 0.5px;\">Listing Information</span>\n\t\t\t\t\t\t\t\t\t\t\t\t\t</td>\n\t\t\t\t\t\t\t\t\t\t\t\t</tr>\n\t\t\t\t\t\t\t\t\t\t\t</table>\n\t\t\t\t\t\t\t\t\t\t\t\n\t\t\t\t\t\t\t\t\t\t\t<!\x2d\x2d Details content \x2d\x2d>\n\t\t\t\t\t\t\t\t\t\t\t<table role=\"presentation\" width=\"100%\" cellspacing=\"0\" cellpadding=\"0\" border=\"0\">\n\t\t\t\t\t\t\t\t\t\t\t\t<tr>\n\t\t\t\t\t\t\t\t\t\t\t\t\t<td style=\"padding: 20px 24px; " :=
  goodCheck_sound (by rfl)

theorem goodLit53 : Good scriptPat "border-bottom: 1px solid #fee2e2;" :=
  goodCheck_sound (by rfl)

theorem goodLit54 : Good scriptPat "\">\n\t\t\t\t\t\t\t\t\t\t\t\t\t\t<span style=\"display: block; font-size: 13px; font-weight: 600; color: #1e40af; font-family: \x27Sono\x27, Arial, sans-serif; margin-bottom: 8px;\">" :=
  goodCheck_sound (by rfl)

theorem goodLit55 : Good scriptPat " Listing Name</span>\n\t\t\t\t\t\t\t\t\t\t\t\t\t\t<span style=\"display: block; font-size: 18px; font-weight: 700; color: #0437F2; font-family: \x27Sono\x27, Arial, sans-serif;\">" :=
  goodCheck_sound (by rfl)

theorem goodLit56 : Good scriptPat "\n\t\t\t\t\t\t\t\t<!\x2d\x2d Rejection notice box \x2d\x2d>\n\t\t\t\t\t\t\t\t<table role=\"presentation\" width=\"100%\" cellspacing=\"0\" cellpadding=\"0\" border=\"0\" style=\"margin-top: 24px; background: linear-gradient(135deg, #fef2f2 0%, #fee2e2 100%); border-radius: 10px; border: 2px solid #ef4444; border-left: 6px solid #dc2626;\">\n\t\t\t\t\t\t\t\t\t<tr>\n\t\t\t\t\t\t\t\t\t\t<td style=\"padding: 18px 24px;\">\n\t\t\t\t\t\t\t\t\t\t\t<p style=\"margin: 0; font-size: 13px; color: #991b1b; line-height: 1.6; font-family: \x27Sono\x27, Arial, sans-serif;\">\n\t\t\t\t\t\t\t\t\t\t\t\t<strong style=\"color: #dc2626; font-size: 14px;\">💡 Next Steps:</strong><br/>\n\t\t\t\t\t\t\t\t\t\t\t\t<span style=\"margin-top: 6px; display: inline-block; font-size: 13px;\">" :=
  goodCheck_sound (by rfl)

theorem goodLit57 : Good scriptPat "If you\x27d like more information or wish to resubmit your verification request with corrections, please contact our support team. We\x27re here to help!" :=
  goodCheck_sound (by rfl)

theorem goodLit58 : Good scriptPat "If you\x27d like more information or wish to resubmit your listing with corrections, please contact our support team. We\x27re here to help!" :=
  goodCheck_sound (by rfl)

theorem goodLit59 : Good scriptPat "\n\t\t\t\t\t\t\t\t\n\t\t\t\t\t\t\t\t<!\x2d\x2d Call to action \x2d\x2d>\n\t\t\t\t\t\t\t\t<table role=\"presentation\" width=\"100%\" cellspacing=\"0\" cellpadding=\"0\" border=\"0\" style=\"margin-top: 32px;\">\n\t\t\t\t\t\t\t\t\t<tr>\n\t\t\t\t\t\t\t\t\t\t<td align=\"center\" style=\"padding: 18px 24px; background: " :=
  goodCheck_sound (by rfl)

theorem goodLit60 : Good scriptPat "linear-gradient(135deg, #ef4444 0%, #dc2626 100%)" :=
  goodCheck_sound (by rfl)

theorem goodLit61 : Good scriptPat "linear-gradient(135deg, #0437F2 0%, #0284c7 100%)" :=
  goodCheck_sound (by rfl)

theorem goodLit62 : Good scriptPat "; border-radius: 10px; box-shadow: 0 4px 12px " :=
  goodCheck_sound (by rfl)

theorem goodLit63 : Good scriptPat "rgba(239, 68, 68, 0.3)" :=
  goodCheck_sound (by rfl)

theorem goodLit64 : Good scriptPat "rgba(4, 55, 242, 0.3)" :=
  goodCheck_sound (by rfl)

theorem goodLit65 : Good scriptPat ";\">\n\t\t\t\t\t\t\t\t\t\t\t<p style=\"margin: 0; font-size: 13px; color: #ffffff; line-height: 1.6; font-family: \x27Sono\x27, Arial, sans-serif; font-weight: 500;\">\n\t\t\t\t\t\t\t\t\t\t\t\t" :=
  goodCheck_sound (by rfl)

theorem goodLit66 : Good scriptPat "🎉 Welcome to MyStay! You can now start creating your first listing and begin hosting guests." :=
  goodCheck_sound (by rfl)

theorem goodLit67 : Good scriptPat "💙 We appreciate your understanding. Please contact support if you have any questions." :=
  goodCheck_sound (by rfl)

theorem goodLit68 : Good scriptPat "🎊 Congratulations! Your listing is now live and visible to guests." :=
  goodCheck_sound (by rfl)

theorem goodLit69 : Good scriptPat "⏳ Your listing is under review. We\x27ll notify you once it\x27s published." :=
  goodCheck_sound (by rfl)

theorem goodLit70 : Good scriptPat "\n\t\t\t\t\t\t\t\t\t\t\t</p>\n\t\t\t\t\t\t\t\t\t\t</td>\n\t\t\t\t\t\t\t\t\t</tr>\n\t\t\t\t\t\t\t\t</table>\n\t\t\t\t\t\t\t</td>\n\t\t\t\t\t\t</tr>\n\t\t\t\t\t\t\n\t\t\t\t\t\t<!\x2d\x2d Footer \x2d\x2d>\n\t\t\t\t\t\t<tr>\n\t\t\t\t\t\t\t<td style=\"background-color: #f0f9ff; padding: 28px 30px; text-align: center; border-top: 2px solid #bfdbfe;\">\n\t\t\t\t\t\t\t\t<p style=\"margin: 0 0 8px 0; font-size: 12px; color: #1e40af; line-height: 1.6; font-family: \x27Sono\x27, Arial, sans-serif; font-weight: 500;\">\n\t\t\t\t\t\t\t\t\tThis is an automated notification from MyStay App.<br/>\n\t\t\t\t\t\t\t\t\tNeed help? Contact our support team anytime.\n\t\t\t\t\t\t\t\t</p>\n\t\t\t\t\t\t\t\t<p style=\"margin: 8px 0 0 0; font-size: 11px; color: #0437F2; font-family: \x27Sono\x27, Arial, sans-serif; font-weight: 600;\">\n\t\t\t\t\t\t\t\t\t© " :=
  goodCheck_sound (by rfl)

theorem goodLit71 : Good scriptPat "Transaction Details" :=
  goodCheck_sound (by rfl)

theorem goodLit72 : Good scriptPat "Payment Details" :=
  goodCheck_sound (by rfl)

theorem goodLit73 : Good scriptPat "💵 Refund Amount" :=
  goodCheck_sound (by rfl)

theorem goodLit74 : Good scriptPat "💰 Amount Paid" :=
  goodCheck_sound (by rfl)

theorem goodLit75 : Good scriptPat "✓ Refund Processed" :=
  goodCheck_sound (by rfl)

theorem goodLit76 : Good scriptPat "✓ Transaction Successful" :=
  goodCheck_sound (by rfl)


set_option maxRecDepth 40000 in
set_option maxHeartbeats 4000000 in
/-- No input to the transaction template can make `<script>` occur in the
rendered HTML: every literal chunk is free of it (and of any dangerous
boundary overlap), and every interpolation is either HTML-escaped or a
digit string. -/
theorem good_script_buildHtml (inp : TxInput) (year : Nat) :
    Good scriptPat (buildHtml inp year) := by
  unfold buildHtml transactionLabel amountLabel bannerTextTx
  repeat' first
    | apply Good.append
    | apply Good.ite
    | exact good_script_esc _
    | exact good_script_year _
    | exact goodLit71
    | exact goodLit72
    | exact goodLit73
    | exact goodLit74
    | exact goodLit75
    | exact goodLit76
    | exact goodLit0
    | exact goodLit1
    | exact goodLit2
    | exact goodLit3
    | exact goodLit4
    | exact goodLit5
    | exact goodLit6
    | exact goodLit7
    | exact goodLit8
    | exact goodLit9
    | exact goodLit10
    | exact goodLit11
    | exact goodLit12
    | exact goodLit13
    | exact goodLit14
    | exact goodLit15
    | exact goodLit16
    | exact goodLit17
    | exact goodLit18
    | exact goodLit19
    | exact goodLit20
    | exact goodLit21
    | exact goodLit22
    | exact goodLit23
    | exact goodLit24
    | exact goodLit25
    | exact goodLit26
    | exact goodLit27
    | exact goodLit28
    | exact goodLit29
    | exact goodLit30
    | exact goodLit31
    | exact goodLit32
    | exact goodLit33
    | exact goodLit34
    | exact goodLit35
    | exact goodLit36
    | exact goodLit37
    | exact goodLit38
    | exact goodLit39
    | exact goodLit40
    | exact goodLit41
    | exact goodLit42
    | exact goodLit43
    | exact goodLit44
    | exact goodLit45
    | exact goodLit46
    | exact goodLit47
    | exact goodLit48
    | exact goodLit49
    | exact goodLit50
    | exact goodLit51
    | exact goodLit52
    | exact goodLit53
    | exact goodLit54
    | exact goodLit55
    | exact goodLit56
    | exact goodLit57
    | exact goodLit58
    | exact goodLit59
    | exact goodLit60
    | exact goodLit61
    | exact goodLit62
    | exact goodLit63
    | exact goodLit64
    | exact goodLit65
    | exact goodLit66
    | exact goodLit67
    | exact goodLit68
    | exact goodLit69
    | exact goodLit70

set_option maxRecDepth 40000 in
set_option maxHeartbeats 8000000 in
/-- No input to the host template can make `<script>` occur in the
rendered HTML. -/
theorem good_script_buildHostHtml (inp : HostInput) (year : Nat) :
    Good scriptPat (buildHostHtml inp year) := by
  unfold buildHostHtml
  repeat' first
    | apply Good.append
    | apply Good.ite
    | exact good_script_esc _
    | exact good_script_year _
    | exact good_script_style_bannerText _
    | exact good_script_style_bannerColor _
    | exact good_script_style_iconEmoji _
    | exact good_script_style_iconBgColor _
    | exact good_script_style_iconShadow _
    | exact goodLit0
    | exact goodLit1
    | exact goodLit2
    | exact goodLit3
    | exact goodLit4
    | exact goodLit5
    | exact goodLit6
    | exact goodLit7
    | exact goodLit8
    | exact goodLit9
    | exact goodLit10
    | exact goodLit11
    | exact goodLit12
    | exact goodLit13
    | exact goodLit14
    | exact goodLit15
    | exact goodLit16
    | exact goodLit17
    | exact goodLit18
    | exact goodLit19
    | exact goodLit20
    | exact goodLit21
    | exact goodLit22
    | exact goodLit23
    | exact goodLit24
    | exact goodLit25
    | exact goodLit26
    | exact goodLit27
    | exact goodLit28
    | exact goodLit29
    | exact goodLit30
    | exact goodLit31
    | exact goodLit32
    | exact goodLit33
    | exact goodLit34
    | exact goodLit35
    | exact goodLit36
    | exact goodLit37
    | exact goodLit38
    | exact goodLit39
    | exact goodLit40
    | exact goodLit41
    | exact goodLit42
    | exact goodLit43
    | exact goodLit44
    | exact goodLit45
    | exact goodLit46
    | exact goodLit47
    | exact goodLit48
    | exact goodLit49
    | exact goodLit50
    | exact goodLit51
    | exact goodLit52
    | exact goodLit53
    | exact goodLit54
    | exact goodLit55
    | exact goodLit56
    | exact goodLit57
    | exact goodLit58
    | exact goodLit59
    | exact goodLit60
    | exact goodLit61
    | exact goodLit62
    | exact goodLit63
    | exact goodLit64
    | exact goodLit65
    | exact goodLit66
    | exact goodLit67
    | exact goodLit68
    | exact goodLit69
    | exact goodLit70

theorem strOccurs_of_hasPat {a b : String} (h : hasPat a.data b.data = true) :
    strOccurs a b :=
  hasPat_iff.mp h

/-! ### Claims -/

/-- Claim C1: for every TransactionNotification and HostNotification
input, every user-supplied string interpolated into the rendered HTML is
HTML-escaped (ampersand, angle brackets, double quote, single quote
replaced), so a string containing `<script>` never appears unescaped in
the HTML output, while the plain-text output uses the raw unescaped
values verbatim (payment title as prefix, recipient name and extra
message as substrings of the transaction text, rejection reason as a
substring of the rejected host text). -/
theorem spec_c1_escaping (tx : TxInput) (host : HostInput) (year : Nat)
    (name hname : String) (req : TxRequest) (hreq : HostRequest) :
    (¬ strOccurs "<script>" (buildHtml tx year)) ∧
    (¬ strOccurs "<script>" (buildHostHtml host year)) ∧
    (req.payment_title.getD "").data <+: (txText name req).data ∧
    (name ≠ "" → strOccurs name (txText name req)) ∧
    (optTruthy req.extra_message = true →
      strOccurs (req.extra_message.getD "") (txText name req)) ∧
    (hreq.email_type = some "rejected" →
      strOccurs (optDisplay hreq.rejection_reason) (hostText hname hreq)) := by
  refine ⟨(good_script_buildHtml tx year).1, (good_script_buildHostHtml host year).1,
    ?_, ?_, ?_, ?_⟩
  · unfold txText
    simp only [String.data_append, List.append_assoc]
    exact List.prefix_append _ _
  · intro hn
    unfold txText
    rw [if_pos hn]
    repeat first
      | (apply strOccurs_appR ; exact strOccurs_refl _)
      | apply strOccurs_appL
  · intro he
    unfold txText
    rw [if_pos he]
    apply strOccurs_appR
    apply strOccurs_appR
    exact strOccurs_refl _
  · intro het
    unfold hostText
    rw [if_neg (by simp [het]), if_neg (by simp [het]), if_pos het]
    repeat first
      | (apply strOccurs_appR ; exact strOccurs_refl _)
      | apply strOccurs_appL

/-- Witness for claim C1 at a concrete adversarial input: the string
`<script>` placed in every user field never reaches the HTML, while the
plain text carries the raw values. -/
theorem spec_c1_escaping_witness :
    (¬ strOccurs "<script>"
        (buildHtml ⟨"Bob<script>alert(1)</script>", "Rent Payment",
          some "MP<script>", .vStr "<script>5</script>", some "B1",
          some "note <script>"⟩ 2025)) ∧
    (¬ strOccurs "<script>"
        (buildHostHtml ⟨"Eve<script>", "Villa<script>", "rejected",
          some "bad <script>", none⟩ 2025)) ∧
    ("Rent Payment").data <+:
      (txText "<script>evil"
        { payment_title := some "Rent Payment", amount := .vNum 0,
          extra_message := some "<script>x" }).data ∧
    strOccurs "<script>evil"
      (txText "<script>evil"
        { payment_title := some "Rent Payment", amount := .vNum 0,
          extra_message := some "<script>x" }) ∧
    strOccurs "<script>x"
      (txText "<script>evil"
        { payment_title := some "Rent Payment", amount := .vNum 0,
          extra_message := some "<script>x" }) ∧
    strOccurs "bad <script>"
      (hostText "Eve"
        { email_type := some "rejected", listing_name := some "Villa",
          rejection_reason := some "bad <script>" }) := by
  have h := spec_c1_escaping
    ⟨"Bob<script>alert(1)</script>", "Rent Payment", some "MP<script>",
      .vStr "<script>5</script>", some "B1", some "note <script>"⟩
    ⟨"Eve<script>", "Villa<script>", "rejected", some "bad <script>", none⟩
    2025 "<script>evil" "Eve"
    { payment_title := some "Rent Payment", amount := .vNum 0,
      extra_message := some "<script>x" }
    { email_type := some "rejected", listing_name := some "Villa",
      rejection_reason := some "bad <script>" }
  exact ⟨h.1, h.2.1, h.2.2.1, h.2.2.2.1 (by decide), h.2.2.2.2.1 (by decide),
    h.2.2.2.2.2 (by decide)⟩

/-- Claim C2: `composeHostSend` enforces the conditional-field invariant
before any profile lookup, render, or send: missing `listing_name` for
the three listing email types, missing `rejection_reason` for `rejected`,
and missing `verification_rejection_reason` for `verification_rejected`
each produce a ValidationError with no lookup performed; a
`verified` request with a `host_email` and no `listing_name` succeeds
with the verification subject. -/
theorem spec_c2_host_validation (req : HostRequest) (resolver : String → Resolved)
    (cfg : Config) :
    ((req.email_type = some "submitted" ∨ req.email_type = some "published" ∨
        req.email_type = some "rejected") → optTruthy req.listing_name = false →
      composeHostSend req resolver cfg =
        ⟨.validationError "Missing required field: listing_name (required for listing emails)",
          false⟩) ∧
    (req.email_type = some "rejected" → optTruthy req.rejection_reason = false →
      ∃ msg, composeHostSend req resolver cfg = ⟨.validationError msg, false⟩) ∧
    (req.email_type = some "verification_rejected" →
      optTruthy req.verification_rejection_reason = false →
      ∃ msg, composeHostSend req resolver cfg = ⟨.validationError msg, false⟩) ∧
    (req.email_type = some "verified" → optTruthy req.host_email = true →
      req.listing_name = none →
      ∃ env, composeHostSend req resolver cfg = ⟨.sent env, false⟩ ∧
        env.subject = "Your host account has been verified") := by
  refine ⟨?_, ?_, ?_, ?_⟩
  · intro hlist hln
    rcases hlist with h | h | h <;>
      simp [composeHostSend, h, hln]
  · intro het hrr
    by_cases hl : optTruthy req.listing_name = false
    · exact ⟨"Missing required field: listing_name (required for listing emails)",
        by simp [composeHostSend, het, hl]⟩
    · rw [Bool.not_eq_false] at hl
      exact ⟨"rejection_reason is required when email_type is \"rejected\"",
        by simp [composeHostSend, het, hl, hrr]⟩
  · intro het hvr
    exact ⟨"verification_rejection_reason is required when email_type is \"verification_rejected\"",
      by simp [composeHostSend, het, hvr]⟩
  · intro het he hl
    refine ⟨mkHostEnvelope cfg (req.host_email.getD "") (req.host_name.getD "") req,
      ?_, ?_⟩
    · simp [composeHostSend, het, he, hl]
    · simp [mkHostEnvelope, hostSubject, het]

/-- Witness for claim C2: the three missing-field requests are rejected
without lookup, and a concrete `verified` request with no listing name
succeeds with the verification subject. -/
theorem spec_c2_host_validation_witness :
    (composeHostSend { email_type := some "submitted", host_email := some "h@x.com" }
        (fun _ => ⟨some "db@x.com", some "DB"⟩) ⟨none, none, none, 2025⟩ =
      ⟨.validationError "Missing required field: listing_name (required for listing emails)",
        false⟩) ∧
    (∃ msg, composeHostSend
        { email_type := some "rejected", listing_name := some "Villa",
          host_email := some "h@x.com" }
        (fun _ => ⟨some "db@x.com", some "DB"⟩) ⟨none, none, none, 2025⟩ =
      ⟨.validationError msg, false⟩) ∧
    (∃ msg, composeHostSend
        { email_type := some "verification_rejected", host_email := some "h@x.com" }
        (fun _ => ⟨some "db@x.com", some "DB"⟩) ⟨none, none, none, 2025⟩ =
      ⟨.validationError msg, false⟩) ∧
    (∃ env, composeHostSend { email_type := some "verified", host_email := some "h@x.com" }
        (fun _ => ⟨some "db@x.com", some "DB"⟩) ⟨none, none, none, 2025⟩ =
      ⟨.sent env, false⟩ ∧ env.subject = "Your host account has been verified") := by
  refine ⟨?_, ?_, ?_, ?_⟩
  · exact (spec_c2_host_validation _ _ _).1 (by decide) (by decide)
  · exact (spec_c2_host_validation _ _ _).2.1 (by decide) (by decide)
  · exact (spec_c2_host_validation _ _ _).2.2.1 (by decide) (by decide)
  · exact (spec_c2_host_validation _ _ _).2.2.2 (by decide) (by decide) (by decide)

/-- Claim C3: for every valid transaction request that supplies `email`
directly, no profile lookup occurs (the result does not depend on the
resolver at all), the envelope's recipient equals the supplied email
exactly, and a caller-supplied `recipient_name` is the display name used
by both renderers (caller-supplied name takes precedence over any
looked-up name). -/
theorem spec_c3_direct_email (req : TxRequest) (resolver resolver' : String → Resolved)
    (cfg : Config) (hpt : optTruthy req.payment_title = true)
    (ha1 : req.amount ≠ .vUndef) (ha2 : req.amount ≠ .vNull)
    (he : optTruthy req.email = true) :
    (composeTransactionSend req resolver cfg).lookedUp = false ∧
    composeTransactionSend req resolver cfg = composeTransactionSend req resolver' cfg ∧
    ∃ env, (composeTransactionSend req resolver cfg).outcome = .sent env ∧
      env.toAddr = req.email.getD "" ∧
      env.text = txText (req.recipient_name.getD "") req ∧
      env.html = buildHtml
        { recipientName := req.recipient_name.getD ""
          paymentTitle := req.payment_title.getD ""
          mpesaReceipt := req.mpesa_receipt
          amount := req.amount
          bookingId := req.booking_id
          extraMessage := req.extra_message } cfg.year := by
  have hval : ¬ (optTruthy req.payment_title = false ∨ req.amount = JsVal.vUndef ∨
      req.amount = JsVal.vNull) := by
    simp [hpt, ha1, ha2]
  refine ⟨?_, ?_, ?_⟩
  · simp [composeTransactionSend, hval, he]
  · simp [composeTransactionSend, hval, he]
  · refine ⟨mkTxEnvelope cfg (req.email.getD "") (req.recipient_name.getD "") req, ?_, rfl, rfl, rfl⟩
    simp [composeTransactionSend, hval, he]

/-- Witness for claim C3 at a concrete request with a direct email and a
caller-supplied name, against a resolver that would return a different
name. -/
theorem spec_c3_direct_email_witness :
    (composeTransactionSend
        { payment_title := some "Rent", amount := .vStr "KES 10",
          email := some "a@b.com", recipient_name := some "Caller Name" }
        (fun _ => ⟨some "other@x.com", some "Looked Up"⟩) ⟨none, none, none, 2025⟩).lookedUp
      = false ∧
    composeTransactionSend
        { payment_title := some "Rent", amount := .vStr "KES 10",
          email := some "a@b.com", recipient_name := some "Caller Name" }
        (fun _ => ⟨some "other@x.com", some "Looked Up"⟩) ⟨none, none, none, 2025⟩ =
      composeTransactionSend
        { payment_title := some "Rent", amount := .vStr "KES 10",
          email := some "a@b.com", recipient_name := some "Caller Name" }
        (fun _ => ⟨none, none⟩) ⟨none, none, none, 2025⟩ ∧
    ∃ env, (composeTransactionSend
        { payment_title := some "Rent", amount := .vStr "KES 10",
          email := some "a@b.com", recipient_name := some "Caller Name" }
        (fun _ => ⟨some "other@x.com", some "Looked Up"⟩) ⟨none, none, none, 2025⟩).outcome
        = .sent env ∧
      env.toAddr = "a@b.com" ∧
      env.text = txText "Caller Name"
        { payment_title := some "Rent", amount := .vStr "KES 10",
          email := some "a@b.com", recipient_name := some "Caller Name" } ∧
      env.html = buildHtml
        { recipientName := "Caller Name", paymentTitle := "Rent",
          mpesaReceipt := none, amount := .vStr "KES 10",
          bookingId := none, extraMessage := none } 2025 :=
  spec_c3_direct_email _ _ _ _ (by decide) (by decide) (by decide) (by decide)

/-- Claim C4: for every transaction request that supplies only
`recipient_id` (no usable `email`), if the resolver returns a null email
the composer returns the NotFoundError and constructs no envelope. -/
theorem spec_c4_lookup_notfound (req : TxRequest) (resolver : String → Resolved)
    (cfg : Config) (hpt : optTruthy req.payment_title = true)
    (ha1 : req.amount ≠ .vUndef) (ha2 : req.amount ≠ .vNull)
    (he : optTruthy req.email = false) (hid : optTruthy req.recipient_id = true)
    (hres : (resolver (req.recipient_id.getD "")).email = none) :
    composeTransactionSend req resolver cfg =
      ⟨.notFound "Recipient email not found in database", true⟩ ∧
    ∀ env, (composeTransactionSend req resolver cfg).outcome ≠ .sent env := by
  have hval : ¬ (optTruthy req.payment_title = false ∨ req.amount = JsVal.vUndef ∨
      req.amount = JsVal.vNull) := by
    simp [hpt, ha1, ha2]
  have h : composeTransactionSend req resolver cfg =
      ⟨.notFound "Recipient email not found in database", true⟩ := by
    simp [composeTransactionSend, hval, he, hid, hres]
  exact ⟨h, by intro env; rw [h]; simp⟩

/-- Witness for claim C4 at a concrete lookup-only request whose resolver
finds no email. -/
theorem spec_c4_lookup_notfound_witness :
    composeTransactionSend
        { payment_title := some "Rent", amount := .vNum 5, recipient_id := some "u1" }
        (fun _ => ⟨none, some "Ghost"⟩) ⟨none, none, none, 2025⟩ =
      ⟨.notFound "Recipient email not found in database", true⟩ ∧
    ∀ env, (composeTransactionSend
        { payment_title := some "Rent", amount := .vNum 5, recipient_id := some "u1" }
        (fun _ => ⟨none, some "Ghost"⟩) ⟨none, none, none, 2025⟩).outcome ≠ .sent env :=
  spec_c4_lookup_notfound _ _ _ (by decide) (by decide) (by decide) (by decide)
    (by decide) (by decide)

/-- Claim C5: `lookupRecipient` is total over all modelled database
responses (no exception reaches the caller) and: an empty recipient id
returns nulls without issuing any query; a primary query error returns
nulls; for role `guest` a secondary "no row" result yields a null name
while the primary email is still returned. -/
theorem spec_c5_lookup_fallbacks :
    (∀ db : Db, lookupRecipient db "" = ⟨none, none, false, false⟩) ∧
    (∀ (db : Db) (id : String) (e : String), id ≠ "" →
      (db.profiles id).error = some e →
      lookupRecipient db id = ⟨none, none, true, false⟩) ∧
    (∀ (db : Db) (id : String) (row : ProfileRow), id ≠ "" →
      db.profiles id = ⟨some row, none⟩ → row.role = some "guest" →
      db.guest_profiles id = ⟨none, none⟩ →
      (lookupRecipient db id).name = none ∧
      (lookupRecipient db id).email = row.email) := by
  refine ⟨fun db => rfl, ?_, ?_⟩
  · intro db id e hid herr
    simp [lookupRecipient, hid, herr]
  · intro db id row hid hrow hrole hguest
    simp [lookupRecipient, hid, hrow, hrole, hguest]

/-- Witness for claim C5 at concrete databases: an erroring primary
lookup, and a guest whose secondary lookup has no row. -/
theorem spec_c5_lookup_fallbacks_witness :
    lookupRecipient
      ⟨fun _ => ⟨none, some "57014"⟩, fun _ => ⟨none, none⟩, fun _ => ⟨none, none⟩⟩
      "u1" = ⟨none, none, true, false⟩ ∧
    (lookupRecipient
      ⟨fun _ => ⟨some ⟨"u2", some "g@x.com", some "guest"⟩, none⟩,
        fun _ => ⟨none, none⟩, fun _ => ⟨none, none⟩⟩ "u2").name = none ∧
    (lookupRecipient
      ⟨fun _ => ⟨some ⟨"u2", some "g@x.com", some "guest"⟩, none⟩,
        fun _ => ⟨none, none⟩, fun _ => ⟨none, none⟩⟩ "u2").email = some "g@x.com" := by
  refine ⟨?_, ?_⟩
  · exact spec_c5_lookup_fallbacks.2.1 _ "u1" "57014" (by decide) rfl
  · exact spec_c5_lookup_fallbacks.2.2 _ "u2" ⟨"u2", some "g@x.com", some "guest"⟩
      (by decide) rfl rfl rfl

/-- Claim C6: `renderTransaction` selects the refund copy variant exactly
when the payment title contains "refund", "reversal", or "reimbursement"
as a case-insensitive substring at any position; otherwise the generic
payment variant (witnessed by the two banner texts in the rendered
HTML). -/
theorem spec_c6_refund_trigger (t : String) (inp : TxInput) (year : Nat) :
    (isRefundTitle t = true ↔
      ("refund".data <:+: (jsToLower t).data ∨
       "reversal".data <:+: (jsToLower t).data ∨
       "reimbursement".data <:+: (jsToLower t).data)) ∧
    (isRefundTitle inp.paymentTitle = true →
      strOccurs "✓ Refund Processed" (buildHtml inp year)) ∧
    (isRefundTitle inp.paymentTitle = false →
      strOccurs "✓ Transaction Successful" (buildHtml inp year)) := by
  refine ⟨?_, ?_, ?_⟩
  · by_cases ht : t = ""
    · subst ht
      decide
    · simp [isRefundTitle, jsIncludes, ht, hasPat_iff, or_assoc]
  · intro h
    have hb : bannerTextTx inp.paymentTitle = "✓ Refund Processed" := by
      unfold bannerTextTx
      rw [if_pos h]
    unfold buildHtml
    rw [hb]
    repeat first
      | (apply strOccurs_appR ; exact strOccurs_refl _)
      | apply strOccurs_appL
  · intro h
    have hb : bannerTextTx inp.paymentTitle = "✓ Transaction Successful" := by
      unfold bannerTextTx
      rw [h]
      simp
    unfold buildHtml
    rw [hb]
    repeat first
      | (apply strOccurs_appR ; exact strOccurs_refl _)
      | apply strOccurs_appL

/-- Witness for claim C6 at the specification's own case examples:
`"Booking Refund Issued"` classifies as refund (and renders the refund
banner), `"Booking Payment Received"` classifies as generic (and renders
the generic banner). -/
theorem spec_c6_refund_trigger_witness :
    (isRefundTitle "Booking Refund Issued" = true ↔
      ("refund".data <:+: (jsToLower "Booking Refund Issued").data ∨
       "reversal".data <:+: (jsToLower "Booking Refund Issued").data ∨
       "reimbursement".data <:+: (jsToLower "Booking Refund Issued").data)) ∧
    strOccurs "✓ Refund Processed"
      (buildHtml ⟨"J", "Booking Refund Issued", none, .vNum 5, none, none⟩ 2025) ∧
    strOccurs "✓ Transaction Successful"
      (buildHtml ⟨"J", "Booking Payment Received", none, .vNum 5, none, none⟩ 2025) :=
  ⟨(spec_c6_refund_trigger "Booking Refund Issued"
      ⟨"J", "Booking Refund Issued", none, .vNum 5, none, none⟩ 2025).1,
   (spec_c6_refund_trigger "Booking Refund Issued"
      ⟨"J", "Booking Refund Issued", none, .vNum 5, none, none⟩ 2025).2.1 (by decide),
   (spec_c6_refund_trigger "Booking Payment Received"
      ⟨"J", "Booking Payment Received", none, .vNum 5, none, none⟩ 2025).2.2 (by decide)⟩

/-- Claim C8, counterexample: the banner text that `buildHostHtml`
renders for `submitted` is not the spec table's bare value
`"Listing Submitted"` — the code prepends a status glyph. -/
theorem spec_c8_banner_cex : (hostStyle "submitted").bannerText ≠ "Listing Submitted" := by
  decide

/-- Claim C8 as amended: for each of the five emailType values the banner
text is the spec table's value prefixed with a status glyph and a space
(`"✓ "` for submitted / published / verified, `"⚠ "` for rejected /
verification_rejected), and this banner text always appears in the
rendered host HTML. -/
theorem spec_c8_banner_amended :
    (hostStyle "submitted").bannerText = "✓ Listing Submitted" ∧
    (hostStyle "published").bannerText = "✓ Listing Published" ∧
    (hostStyle "rejected").bannerText = "⚠ Listing Not Approved" ∧
    (hostStyle "verified").bannerText = "✓ Host Verified" ∧
    (hostStyle "verification_rejected").bannerText = "⚠ Verification Not Approved" ∧
    ∀ (inp : HostInput) (year : Nat),
      strOccurs (hostStyle inp.emailType).bannerText (buildHostHtml inp year) := by
  refine ⟨by decide, by decide, by decide, by decide, by decide, ?_⟩
  intro inp year
  unfold buildHostHtml
  repeat first
    | (apply strOccurs_appR ; exact strOccurs_refl _)
    | apply strOccurs_appL

/-- Claim C9: required-field validation treats presence as JavaScript
truthiness for `payment_title` but not for `amount`: an empty
`payment_title` is rejected as missing, `amount` is rejected only when
`null`/`undefined` (so `0` and `""` pass), and the accepted amount is
rendered via `String(amount)` in both text and HTML. -/
theorem spec_c9_amount_truthiness (req : TxRequest) (resolver : String → Resolved)
    (cfg : Config) :
    (req.payment_title = some "" →
      composeTransactionSend req resolver cfg =
        ⟨.validationError "Missing required fields: payment_title and amount", false⟩) ∧
    (req.amount = .vUndef ∨ req.amount = .vNull →
      composeTransactionSend req resolver cfg =
        ⟨.validationError "Missing required fields: payment_title and amount", false⟩) ∧
    (optTruthy req.payment_title = true → req.amount ≠ .vUndef → req.amount ≠ .vNull →
      optTruthy req.email = true →
      ∃ env, (composeTransactionSend req resolver cfg).outcome = .sent env ∧
        env.text = txText (req.recipient_name.getD "") req ∧
        strOccurs (jsString req.amount) env.text ∧
        strOccurs (escapeHtml (jsString req.amount)) env.html) := by
  refine ⟨?_, ?_, ?_⟩
  · intro h
    simp [composeTransactionSend, h]
  · intro h
    rcases h with h | h <;> simp [composeTransactionSend, h]
  · intro hpt ha1 ha2 he
    have hval : ¬ (optTruthy req.payment_title = false ∨ req.amount = JsVal.vUndef ∨
        req.amount = JsVal.vNull) := by
      simp [hpt, ha1, ha2]
    refine ⟨mkTxEnvelope cfg (req.email.getD "") (req.recipient_name.getD "") req,
      ?_, rfl, ?_, ?_⟩
    · simp [composeTransactionSend, hval, he]
    · show strOccurs _ (txText _ _)
      unfold txText
      repeat first
        | (apply strOccurs_appR ; exact strOccurs_refl _)
        | apply strOccurs_appL
    · show strOccurs _ (buildHtml _ _)
      unfold buildHtml
      repeat first
        | (apply strOccurs_appR ; exact strOccurs_refl _)
        | apply strOccurs_appL

/-- Witness for claim C9: empty `payment_title` is rejected while
`amount = 0` passes validation and renders as `0`. -/
theorem spec_c9_amount_truthiness_witness :
    (composeTransactionSend
        { payment_title := some "", amount := .vNum 5, email := some "a@b.com" }
        (fun _ => ⟨none, none⟩) ⟨none, none, none, 2025⟩ =
      ⟨.validationError "Missing required fields: payment_title and amount", false⟩) ∧
    ∃ env, (composeTransactionSend
        { payment_title := some "Rent", amount := .vNum 0, email := some "a@b.com" }
        (fun _ => ⟨none, none⟩) ⟨none, none, none, 2025⟩).outcome = .sent env ∧
      env.text = txText ""
        { payment_title := some "Rent", amount := .vNum 0, email := some "a@b.com" } ∧
      strOccurs (jsString (.vNum 0)) env.text ∧
      strOccurs (escapeHtml (jsString (.vNum 0))) env.html :=
  ⟨(spec_c9_amount_truthiness
      { payment_title := some "", amount := .vNum 5, email := some "a@b.com" }
      (fun _ => ⟨none, none⟩) ⟨none, none, none, 2025⟩).1 rfl,
   (spec_c9_amount_truthiness
      { payment_title := some "Rent", amount := .vNum 0, email := some "a@b.com" }
      (fun _ => ⟨none, none⟩) ⟨none, none, none, 2025⟩).2.2 (by decide) (by decide)
      (by decide) (by decide)⟩

theorem optTruthy_getD {o : Option String} (h : optTruthy o = true) : o.getD "" ≠ "" := by
  cases o with
  | none => simp at h
  | some s =>
    simp only [optTruthy_some, decide_eq_true_eq] at h
    simpa using h

/-- Claim C10: a falsy `email` field (absent or the empty string) is
treated as not supplied: the composer requires `recipient_id` and takes
the lookup path, returns the 'Provide either email or recipient_id'
ValidationError when that is missing too, and never addresses an
envelope to the empty string. -/
theorem spec_c10_falsy_email (req : TxRequest) (resolver : String → Resolved)
    (cfg : Config) (hpt : optTruthy req.payment_title = true)
    (ha1 : req.amount ≠ .vUndef) (ha2 : req.amount ≠ .vNull) :
    (optTruthy req.email = false → optTruthy req.recipient_id = false →
      composeTransactionSend req resolver cfg =
        ⟨.validationError "Provide either email or recipient_id", false⟩) ∧
    (optTruthy req.email = false → optTruthy req.recipient_id = true →
      (composeTransactionSend req resolver cfg).lookedUp = true) ∧
    (∀ env, (composeTransactionSend req resolver cfg).outcome = .sent env →
      env.toAddr ≠ "") := by
  have hval : ¬ (optTruthy req.payment_title = false ∨ req.amount = JsVal.vUndef ∨
      req.amount = JsVal.vNull) := by
    simp [hpt, ha1, ha2]
  refine ⟨?_, ?_, ?_⟩
  · intro he hid
    simp [composeTransactionSend, hval, he, hid]
  · intro he hid
    simp only [composeTransactionSend]
    rw [if_neg hval, if_pos he, if_neg (by simp [hid])]
    split <;> rfl
  · intro env h
    simp only [composeTransactionSend] at h
    rw [if_neg hval] at h
    split at h
    · split at h
      · simp at h
      · split at h
        · simp at h
        · rename_i hre
          simp only [Outcome.sent.injEq] at h
          subst h
          simp only [mkTxEnvelope]
          rw [Bool.not_eq_false] at hre
          exact optTruthy_getD hre
    · rename_i hef
      simp only [Outcome.sent.injEq] at h
      subst h
      simp only [mkTxEnvelope]
      rw [Bool.not_eq_false] at hef
      exact optTruthy_getD hef

/-- Witness for claim C10: an explicit empty-string email with no
recipient id yields the ValidationError; with a recipient id the lookup
path is taken; the resulting envelope is never addressed to `""`. -/
theorem spec_c10_falsy_email_witness :
    (composeTransactionSend
        { payment_title := some "Rent", amount := .vNum 5, email := some "" }
        (fun _ => ⟨some "db@x.com", some "DB"⟩) ⟨none, none, none, 2025⟩ =
      ⟨.validationError "Provide either email or recipient_id", false⟩) ∧
    ((composeTransactionSend
        { payment_title := some "Rent", amount := .vNum 5, email := some "",
          recipient_id := some "u1" }
        (fun _ => ⟨some "db@x.com", some "DB"⟩) ⟨none, none, none, 2025⟩).lookedUp = true) ∧
    (mkTxEnvelope ⟨none, none, none, 2025⟩ "db@x.com" "DB"
        { payment_title := some "Rent", amount := .vNum 5, email := some "",
          recipient_id := some "u1" }).toAddr ≠ "" := by
  refine ⟨?_, ?_, ?_⟩
  · exact (spec_c10_falsy_email
      { payment_title := some "Rent", amount := .vNum 5, email := some "" }
      (fun _ => ⟨some "db@x.com", some "DB"⟩) ⟨none, none, none, 2025⟩
      (by decide) (by decide) (by decide)).1 (by decide) (by decide)
  · exact (spec_c10_falsy_email
      { payment_title := some "Rent", amount := .vNum 5, email := some "",
        recipient_id := some "u1" }
      (fun _ => ⟨some "db@x.com", some "DB"⟩) ⟨none, none, none, 2025⟩
      (by decide) (by decide) (by decide)).2.1 (by decide) (by decide)
  · exact (spec_c10_falsy_email
      { payment_title := some "Rent", amount := .vNum 5, email := some "",
        recipient_id := some "u1" }
      (fun _ => ⟨some "db@x.com", some "DB"⟩) ⟨none, none, none, 2025⟩
      (by decide) (by decide) (by decide)).2.2 _ rfl

/-- The character list of the M-Pesa receipt row label. -/
def receiptPat : List Char := "📱 M-Pesa Receipt".data

theorem good_receipt_esc {s : String} (h : '📱' ∉ s.data) :
    Good receiptPat (escapeHtml s) :=
  Good_of_head (not_mem_escapeHtml h (by decide))

theorem good_receipt_year (n : Nat) : Good receiptPat (toString n) :=
  Good_of_head (fun h => absurd (natRepr_mem h) (by decide))

theorem good_receipt_txLabel (pt : String) : Good receiptPat (transactionLabel pt) := by
  unfold transactionLabel
  split <;> exact goodCheck_sound (by rfl)

theorem good_receipt_amountLabel (pt : String) : Good receiptPat (amountLabel pt) := by
  unfold amountLabel
  split <;> exact goodCheck_sound (by rfl)

theorem good_receipt_bannerTextTx (pt : String) : Good receiptPat (bannerTextTx pt) := by
  unfold bannerTextTx
  split <;> exact goodCheck_sound (by rfl)

/-- When the receipt is absent (falsy), the rendered transaction HTML
contains no receipt row label anywhere, provided the user-supplied fields
do not themselves contain the label's leading glyph. -/
theorem good_receipt_buildHtml (inp : TxInput) (year : Nat)
    (hm : optTruthy inp.mpesaReceipt = false)
    (hn : '📱' ∉ inp.recipientName.data)
    (hp : '📱' ∉ inp.paymentTitle.data)
    (ha : '📱' ∉ (jsString inp.amount).data)
    (hb : '📱' ∉ (inp.bookingId.getD "").data)
    (he : '📱' ∉ (inp.extraMessage.getD "").data) :
    Good receiptPat (buildHtml inp year) := by
  have hni : '📱' ∉ (if inp.recipientName ≠ "" then inp.recipientName else "there").data := by
    split
    · exact hn
    · decide
  unfold buildHtml
  rw [if_neg (show ¬ (optTruthy inp.mpesaReceipt = true) by simp [hm])]
  repeat' first
    | apply Good.append
    | apply Good.ite
    | exact good_receipt_esc hni
    | exact good_receipt_esc hp
    | exact good_receipt_esc ha
    | exact good_receipt_esc hb
    | exact good_receipt_esc he
    | exact good_receipt_year _
    | exact good_receipt_txLabel _
    | exact good_receipt_amountLabel _
    | exact good_receipt_bannerTextTx _
    | exact goodCheck_sound (by rfl)

/-- Claim C7, counterexample: for a request with no `mpesa_receipt` the
composed message does show a placeholder — its plain-text body contains
`M-Pesa Receipt: Processing...` — refuting the claim that no placeholder
such as "Processing…" is shown for a missing receipt. -/
theorem spec_c7_receipt_cex :
    ∃ env, (composeTransactionSend
        { payment_title := some "Rent Payment", amount := .vStr "KES 5",
          email := some "a@b.com" }
        (fun _ => ⟨none, none⟩) ⟨none, none, none, 2025⟩).outcome = .sent env ∧
      strOccurs "M-Pesa Receipt: Processing..." env.text := by
  refine ⟨mkTxEnvelope ⟨none, none, none, 2025⟩ "a@b.com" ""
    { payment_title := some "Rent Payment", amount := .vStr "KES 5",
      email := some "a@b.com" }, rfl, ?_⟩
  exact strOccurs_of_hasPat (by rfl)

/-- Claim C7 as amended: in the HTML renderer the receipt row is rendered
exactly when `mpesaReceipt` is present — when absent the row is omitted
entirely with no placeholder (for inputs whose fields do not contain the
row's glyph) — while the plain-text body always renders an
`M-Pesa Receipt:` line, using the `Processing...` placeholder when the
receipt is absent. -/
theorem spec_c7_receipt_row (inp : TxInput) (year : Nat) (name : String)
    (req : TxRequest)
    (hn : '📱' ∉ inp.recipientName.data)
    (hp : '📱' ∉ inp.paymentTitle.data)
    (ha : '📱' ∉ (jsString inp.amount).data)
    (hb : '📱' ∉ (inp.bookingId.getD "").data)
    (he : '📱' ∉ (inp.extraMessage.getD "").data) :
    (optTruthy inp.mpesaReceipt = true →
      strOccurs "📱 M-Pesa Receipt" (buildHtml inp year)) ∧
    (optTruthy inp.mpesaReceipt = false →
      ¬ strOccurs "📱 M-Pesa Receipt" (buildHtml inp year)) ∧
    (optTruthy req.mpesa_receipt = false →
      strOccurs "M-Pesa Receipt: Processing..." (txText name req)) := by
  refine ⟨?_, ?_, ?_⟩
  · intro h
    unfold buildHtml
    rw [if_pos h]
    iterate 9 apply strOccurs_appL
    apply strOccurs_appR
    iterate 2 apply strOccurs_appL
    apply strOccurs_appR
    exact strOccurs_of_hasPat (by rfl)
  · intro h
    exact (good_receipt_buildHtml inp year h hn hp ha hb he).1
  · intro h
    have hjs : jsOr req.mpesa_receipt "Processing..." = "Processing..." := by
      unfold jsOr
      rw [if_neg (by simp [h])]
    unfold txText
    rw [hjs]
    iterate 4 apply strOccurs_appL
    rw [String.append_assoc]
    apply strOccurs_appR
    exact strOccurs_of_hasPat (by rfl)

/-- Witness for the amended claim C7: with a receipt the HTML shows the
receipt row; without one the row is absent from the HTML while the plain
text shows the placeholder line. -/
theorem spec_c7_receipt_row_witness :
    strOccurs "📱 M-Pesa Receipt"
      (buildHtml ⟨"Jane", "Rent", some "ABC123", .vStr "KES 5", none, none⟩ 2025) ∧
    ¬ strOccurs "📱 M-Pesa Receipt"
      (buildHtml ⟨"Jane", "Rent", none, .vStr "KES 5", none, none⟩ 2025) ∧
    strOccurs "M-Pesa Receipt: Processing..."
      (txText "Jane" { payment_title := some "Rent", amount := .vStr "KES 5" }) :=
  ⟨(spec_c7_receipt_row ⟨"Jane", "Rent", some "ABC123", .vStr "KES 5", none, none⟩ 2025
      "Jane" { payment_title := some "Rent", amount := .vStr "KES 5" }
      (by decide) (by decide) (by decide) (by decide) (by decide)).1 (by decide),
   (spec_c7_receipt_row ⟨"Jane", "Rent", none, .vStr "KES 5", none, none⟩ 2025
      "Jane" { payment_title := some "Rent", amount := .vStr "KES 5" }
      (by decide) (by decide) (by decide) (by decide) (by decide)).2.1 (by decide),
   (spec_c7_receipt_row ⟨"Jane", "Rent", none, .vStr "KES 5", none, none⟩ 2025
      "Jane" { payment_title := some "Rent", amount := .vStr "KES 5" }
      (by decide) (by decide) (by decide) (by decide) (by decide)).2.2 (by decide)⟩

end MyStay
